import Mathlib

/-!
# AXI DMA driver (`sdk/main_0/src/axi_dma.c`)

A shallow embedding of the interrupt-driven simple-mode AXI DMA driver.

* The four file-scope variables of the driver are the record `Globals`.
* Every call that leaves the driver (Xilinx DMA engine, interrupt controller,
  `xil_printf`, a user completion handler) is appended to a log, together with
  the value of the globals at the moment of the call.  The log is what makes
  "how many calls", "in which order" and "what did the callee observe"
  statable.
* Values returned by the hardware are given by a `Backend`: each query is a
  function of the log so far, so any deterministic hardware behaviour can be
  expressed.
* The polling loop of `axi_dma_reset` is bounded by a `fuel` argument (the
  maximal number of polls of one loop); running out of fuel is `none`.  The
  `_log` variants of the same functions keep the state reached when the fuel
  runs out, so that the calls made by a run that never returns stay visible.
* A user completion handler is a function address; what its body does to the
  driver is given by `UserCode`, a list of driver calls per address.
* Every operation runs to its return before the next one starts: preemption
  of foreground code by an interrupt in the middle of an operation, and the
  busy-wait helpers `axi_dma_wait_tx` / `axi_dma_wait_rx`, are not modelled.
* `u32` values (buffer address, size, pending word) are natural numbers; the
  `int` busy counters are integers.  The only arithmetic on a counter is the
  `+= 1` of the submit functions, which the busy check guards.
-/

namespace AxiDma

/-! ## Constants of the Xilinx headers -/

/-- Status `XST_SUCCESS` of `xstatus.h`. -/
def XST_SUCCESS : Int := 0

/-- Status `XST_FAILURE` of `xstatus.h`. -/
def XST_FAILURE : Int := 1

/-- Transfer-complete bit `XAXIDMA_IRQ_IOC_MASK` of `xaxidma_hw.h`. -/
def XAXIDMA_IRQ_IOC_MASK : Nat := 0x00001000

/-- Delay bit `XAXIDMA_IRQ_DELAY_MASK` of `xaxidma_hw.h`. -/
def XAXIDMA_IRQ_DELAY_MASK : Nat := 0x00002000

/-- Error bit `XAXIDMA_IRQ_ERROR_MASK` of `xaxidma_hw.h`. -/
def XAXIDMA_IRQ_ERROR_MASK : Nat := 0x00004000

/-- All three interrupt bits, `XAXIDMA_IRQ_ALL_MASK` of `xaxidma_hw.h`. -/
def XAXIDMA_IRQ_ALL_MASK : Nat := 0x00007000

/-- Offset `XIN_IER_OFFSET` of the interrupt-enable register (`xintc_l.h`). -/
def XIN_IER_OFFSET : Nat := 8

/-- Build parameters taken from `xparameters.h` and `config.h`, which are not
part of the translated file. -/
structure Params where
  XPAR_AXI_DMA_0_DEVICE_ID : Nat
  XPAR_MICROBLAZE_0_INTC_BASEADDR : Nat
  XPAR_INTC_0_AXIDMA_0_MM2S_INTROUT_VEC_ID : Nat
  XPAR_INTC_0_AXIDMA_0_S2MM_INTROUT_VEC_ID : Nat
  VERBOSE : Bool
deriving DecidableEq, Repr

/-! ## Data model -/

/-- Transfer direction argument of the Xilinx DMA calls. -/
inductive Direction where
  | XAXIDMA_DMA_TO_DEVICE
  | XAXIDMA_DEVICE_TO_DMA
deriving DecidableEq, Repr

/-- The opposite direction. -/
def Direction.other : Direction → Direction
  | .XAXIDMA_DMA_TO_DEVICE => .XAXIDMA_DEVICE_TO_DMA
  | .XAXIDMA_DEVICE_TO_DMA => .XAXIDMA_DMA_TO_DEVICE

/-- A value of type `AXI_DMA_HANDLER`: `none` is `NULL`, `some a` is the
function at address `a`. -/
abbrev AXI_DMA_HANDLER := Option Nat

/-- The file-scope variables of `axi_dma.c`. -/
structure Globals where
  m_handler_rx : AXI_DMA_HANDLER
  m_handler_tx : AXI_DMA_HANDLER
  m_queued_rx : Int
  m_queued_tx : Int
deriving DecidableEq, Repr

/-- The two interrupt service routines that get registered. -/
inductive Isr where
  | axi_dma_isr_tx
  | axi_dma_isr_rx
deriving DecidableEq, Repr

/-- The diagnostic lines the driver prints. -/
inductive Msg where
  | isr_tx_irq_error
  | isr_rx_irq_error
  | isr_tx_completed
  | isr_rx_completed
  | initializing_dma
  | lookup_config_fails
  | sg_configured
  | initializing_interrupts
  | queue_tx_busy
  | queue_rx_busy
  | simple_transfer_fails
deriving DecidableEq, Repr

/-- The text of a diagnostic line. -/
def Msg.text : Msg → String
  | .isr_tx_irq_error => "isr_dma_tx(): IRQ error\n"
  | .isr_rx_irq_error => "isr_dma_rx(): IRQ error\n"
  | .isr_tx_completed => "isr_dma_tx(): transmit completed\n"
  | .isr_rx_completed => "isr_dma_rx(): receive completed\n"
  | .initializing_dma => "Initializing DMA...\n"
  | .lookup_config_fails => "ERROR: XAxiDma_LookupConfig() fails\n"
  | .sg_configured => "ERROR: Scatter-Gather DMA is configured\n"
  | .initializing_interrupts => "Initializing interrupts...\n"
  | .queue_tx_busy => "axi_dma_queue_tx() ERROR: Busy\n"
  | .queue_rx_busy => "axi_dma_queue_rx() ERROR: Busy\n"
  | .simple_transfer_fails => "ERROR: XAxiDma_SimpleTransfer() fails\n"

/-- A call that leaves the driver. -/
inductive Event where
  | xil_printf (msg : Msg)
  | XAxiDma_IntrDisable (mask : Nat) (d : Direction)
  | XAxiDma_IntrEnable (mask : Nat) (d : Direction)
  | XAxiDma_Reset
  | XAxiDma_ResetIsDone
  | XAxiDma_IntrGetIrq (d : Direction)
  | XAxiDma_IntrAckIrq (mask : Nat) (d : Direction)
  | XAxiDma_SimpleTransfer (buff : Nat) (size : Nat) (d : Direction)
  | XAxiDma_LookupConfig (deviceId : Nat)
  | XAxiDma_CfgInitialize (config : Nat)
  | XAxiDma_HasSg
  | XIntc_RegisterHandler (baseAddr : Nat) (vecId : Nat) (isr : Isr)
  | XIntc_In32 (addr : Nat)
  | XIntc_EnableIntr (baseAddr : Nat) (mask : Nat)
  | handler (d : Direction) (h : Nat)
deriving DecidableEq, Repr

/-- One log entry: the call, and the globals at the moment of the call. -/
structure Entry where
  globals : Globals
  call : Event
deriving DecidableEq, Repr

/-- Driver state: the globals and the log of calls made so far. -/
structure State where
  g : Globals
  trace : List Entry
deriving DecidableEq, Repr

/-- What the hardware answers.  Every answer may depend on the whole log of
calls made before the query. -/
structure Backend where
  XAxiDma_SimpleTransfer : List Entry → Nat → Nat → Direction → Int
  XAxiDma_IntrGetIrq : List Entry → Direction → Nat
  XAxiDma_ResetIsDone : List Entry → Bool
  XAxiDma_LookupConfig : List Entry → Nat → Option Nat
  XAxiDma_HasSg : List Entry → Bool
  XIntc_In32 : List Entry → Nat → Nat

/-- A driver call made by application code from inside a completion handler. -/
inductive Call where
  | queue_tx (buff : Nat) (size : Nat) (handler : AXI_DMA_HANDLER)
  | queue_rx (buff : Nat) (size : Nat) (handler : AXI_DMA_HANDLER)
  | reset
deriving DecidableEq, Repr

/-- The application: for every handler address, the driver calls its body
makes, in order. -/
abbrev UserCode := Nat → List Call

/-- Append a call to the log, with the globals as they are now. -/
def log (s : State) (e : Event) : State :=
  { s with trace := s.trace ++ [⟨s.g, e⟩] }

/-- The program state before `main` runs: the static initialisers. -/
def boot : State :=
  ⟨⟨none, none, 0, 0⟩, []⟩

/-- All four globals cleared. -/
def Globals.idle : Globals :=
  ⟨none, none, 0, 0⟩

/-! ## The driver -/

/-- C `axi_dma_interrupts_disable`: disable all interrupts, transmit side
first. -/
def axi_dma_interrupts_disable (s : State) : State :=
  let s := log s (.XAxiDma_IntrDisable XAXIDMA_IRQ_ALL_MASK .XAXIDMA_DMA_TO_DEVICE)
  log s (.XAxiDma_IntrDisable XAXIDMA_IRQ_ALL_MASK .XAXIDMA_DEVICE_TO_DMA)

/-- C `axi_dma_interrupts_enable`: enable all interrupts, transmit side
first. -/
def axi_dma_interrupts_enable (s : State) : State :=
  let s := log s (.XAxiDma_IntrEnable XAXIDMA_IRQ_ALL_MASK .XAXIDMA_DMA_TO_DEVICE)
  log s (.XAxiDma_IntrEnable XAXIDMA_IRQ_ALL_MASK .XAXIDMA_DEVICE_TO_DMA)

/-- The loop `while (XAxiDma_ResetIsDone(&m_AxiDma) == 0) {}` of
`axi_dma_reset`, with at most `fuel` polls. -/
def resetWait (be : Backend) : Nat → State → Option State
  | 0, _ => none
  | fuel + 1, s =>
    if be.XAxiDma_ResetIsDone s.trace then
      some (log s .XAxiDma_ResetIsDone)
    else
      resetWait be fuel (log s .XAxiDma_ResetIsDone)

/-- C `axi_dma_reset`. -/
def axi_dma_reset (be : Backend) (fuel : Nat) (s : State) : Option State :=
  let s := { s with g := { s.g with m_queued_tx := 0, m_queued_rx := 0 } }
  let s := { s with g := { s.g with m_handler_tx := none, m_handler_rx := none } }
  let s := log s .XAxiDma_Reset
  match resetWait be fuel s with
  | none => none
  | some s =>
    let s := axi_dma_interrupts_disable s
    some (axi_dma_interrupts_enable s)

/-- C `axi_dma_queued_tx`. -/
def axi_dma_queued_tx (g : Globals) : Bool :=
  g.m_queued_tx != 0

/-- C `axi_dma_queued_rx`. -/
def axi_dma_queued_rx (g : Globals) : Bool :=
  g.m_queued_rx != 0

/-- C `axi_dma_queue_tx`: the returned status and the state afterwards. -/
def axi_dma_queue_tx (be : Backend) (buff size : Nat) (handler : AXI_DMA_HANDLER)
    (s : State) : Int × State :=
  if axi_dma_queued_tx s.g then
    (XST_FAILURE, log s (.xil_printf .queue_tx_busy))
  else
    let s := { s with g := { s.g with m_queued_tx := s.g.m_queued_tx + 1 } }
    let s := { s with g := { s.g with m_handler_tx := handler } }
    let status := be.XAxiDma_SimpleTransfer s.trace buff size .XAXIDMA_DMA_TO_DEVICE
    let s := log s (.XAxiDma_SimpleTransfer buff size .XAXIDMA_DMA_TO_DEVICE)
    if status ≠ XST_SUCCESS then
      (XST_FAILURE, log s (.xil_printf .simple_transfer_fails))
    else
      (XST_SUCCESS, s)

/-- C `axi_dma_queue_rx`: the returned status and the state afterwards. -/
def axi_dma_queue_rx (be : Backend) (buff size : Nat) (handler : AXI_DMA_HANDLER)
    (s : State) : Int × State :=
  if axi_dma_queued_rx s.g then
    (XST_FAILURE, log s (.xil_printf .queue_rx_busy))
  else
    let s := { s with g := { s.g with m_queued_rx := s.g.m_queued_rx + 1 } }
    let s := { s with g := { s.g with m_handler_rx := handler } }
    let status := be.XAxiDma_SimpleTransfer s.trace buff size .XAXIDMA_DEVICE_TO_DMA
    let s := log s (.XAxiDma_SimpleTransfer buff size .XAXIDMA_DEVICE_TO_DMA)
    if status ≠ XST_SUCCESS then
      (XST_FAILURE, log s (.xil_printf .simple_transfer_fails))
    else
      (XST_SUCCESS, s)

/-- One driver call made by a completion handler. -/
def Call.exec (be : Backend) (fuel : Nat) (c : Call) (s : State) : Option State :=
  match c with
  | .queue_tx buff size handler => some (axi_dma_queue_tx be buff size handler s).2
  | .queue_rx buff size handler => some (axi_dma_queue_rx be buff size handler s).2
  | .reset => axi_dma_reset be fuel s

/-- The body of a completion handler: its driver calls, in order. -/
def runBody (be : Backend) (fuel : Nat) : List Call → State → Option State
  | [], s => some s
  | c :: cs, s =>
    match c.exec be fuel s with
    | none => none
    | some s => runBody be fuel cs s

/-- C `axi_dma_isr_tx`. -/
def axi_dma_isr_tx (be : Backend) (uc : UserCode) (p : Params) (fuel : Nat)
    (s : State) : Option State :=
  let IrqStatus := be.XAxiDma_IntrGetIrq s.trace .XAXIDMA_DMA_TO_DEVICE
  let s := log s (.XAxiDma_IntrGetIrq .XAXIDMA_DMA_TO_DEVICE)
  let s := log s (.XAxiDma_IntrAckIrq IrqStatus .XAXIDMA_DMA_TO_DEVICE)
  if IrqStatus &&& XAXIDMA_IRQ_ALL_MASK = 0 then
    some s
  else if IrqStatus &&& XAXIDMA_IRQ_ERROR_MASK ≠ 0 then
    let s := log s (.xil_printf .isr_tx_irq_error)
    axi_dma_reset be fuel s
  else if IrqStatus &&& (XAXIDMA_IRQ_DELAY_MASK ||| XAXIDMA_IRQ_IOC_MASK) ≠ 0 then
    let handler := s.g.m_handler_tx
    let s := if p.VERBOSE then log s (.xil_printf .isr_tx_completed) else s
    let s := { s with g := { s.g with m_queued_tx := 0 } }
    let s := { s with g := { s.g with m_handler_tx := none } }
    match handler with
    | some h => runBody be fuel (uc h) (log s (.handler .XAXIDMA_DMA_TO_DEVICE h))
    | none => some s
  else
    some s

/-- C `axi_dma_isr_rx`. -/
def axi_dma_isr_rx (be : Backend) (uc : UserCode) (p : Params) (fuel : Nat)
    (s : State) : Option State :=
  let IrqStatus := be.XAxiDma_IntrGetIrq s.trace .XAXIDMA_DEVICE_TO_DMA
  let s := log s (.XAxiDma_IntrGetIrq .XAXIDMA_DEVICE_TO_DMA)
  let s := log s (.XAxiDma_IntrAckIrq IrqStatus .XAXIDMA_DEVICE_TO_DMA)
  if IrqStatus &&& XAXIDMA_IRQ_ALL_MASK = 0 then
    some s
  else if IrqStatus &&& XAXIDMA_IRQ_ERROR_MASK ≠ 0 then
    let s := log s (.xil_printf .isr_rx_irq_error)
    axi_dma_reset be fuel s
  else if IrqStatus &&& (XAXIDMA_IRQ_DELAY_MASK ||| XAXIDMA_IRQ_IOC_MASK) ≠ 0 then
    let handler := s.g.m_handler_rx
    let s := if p.VERBOSE then log s (.xil_printf .isr_rx_completed) else s
    let s := { s with g := { s.g with m_queued_rx := 0 } }
    let s := { s with g := { s.g with m_handler_rx := none } }
    match handler with
    | some h => runBody be fuel (uc h) (log s (.handler .XAXIDMA_DEVICE_TO_DMA h))
    | none => some s
  else
    some s

/-- C `axi_dma_initialize_interrupts`; `Mask` is a `u32`. -/
def axi_dma_initialize_interrupts (be : Backend) (p : Params) (BaseAddr : Nat)
    (s : State) : Int × State :=
  let s := log s (.XIntc_RegisterHandler BaseAddr
    p.XPAR_INTC_0_AXIDMA_0_MM2S_INTROUT_VEC_ID .axi_dma_isr_tx)
  let s := log s (.XIntc_RegisterHandler BaseAddr
    p.XPAR_INTC_0_AXIDMA_0_S2MM_INTROUT_VEC_ID .axi_dma_isr_rx)
  let Mask := be.XIntc_In32 s.trace ((BaseAddr + XIN_IER_OFFSET) % 2 ^ 32)
  let s := log s (.XIntc_In32 ((BaseAddr + XIN_IER_OFFSET) % 2 ^ 32))
  let Mask := Mask ||| (1 <<< p.XPAR_INTC_0_AXIDMA_0_MM2S_INTROUT_VEC_ID) % 2 ^ 32
  let Mask := Mask ||| (1 <<< p.XPAR_INTC_0_AXIDMA_0_S2MM_INTROUT_VEC_ID) % 2 ^ 32
  let s := log s (.XIntc_EnableIntr BaseAddr Mask)
  (XST_SUCCESS, s)

/-- C `axi_dma_initialize`: the returned status and the state afterwards. -/
def axi_dma_initialize (be : Backend) (p : Params) (s : State) : Int × State :=
  let s := { s with g := { s.g with m_queued_tx := 0, m_queued_rx := 0 } }
  let s := { s with g := { s.g with m_handler_tx := none, m_handler_rx := none } }
  let s := log s (.xil_printf .initializing_dma)
  let Config := be.XAxiDma_LookupConfig s.trace p.XPAR_AXI_DMA_0_DEVICE_ID
  let s := log s (.XAxiDma_LookupConfig p.XPAR_AXI_DMA_0_DEVICE_ID)
  match Config with
  | none => (XST_FAILURE, log s (.xil_printf .lookup_config_fails))
  | some cfg =>
    let s := log s (.XAxiDma_CfgInitialize cfg)
    let hasSg := be.XAxiDma_HasSg s.trace
    let s := log s .XAxiDma_HasSg
    if hasSg then
      (XST_FAILURE, log s (.xil_printf .sg_configured))
    else
      let s := log s (.xil_printf .initializing_interrupts)
      let r := axi_dma_initialize_interrupts be p p.XPAR_MICROBLAZE_0_INTC_BASEADDR s
      if r.1 ≠ XST_SUCCESS then
        (XST_FAILURE, r.2)
      else
        let s := axi_dma_interrupts_disable r.2
        let s := axi_dma_interrupts_enable s
        (XST_SUCCESS, s)

/-! ## Direction-indexed views -/

/-- The busy counter of a direction: `m_queued_tx` or `m_queued_rx`. -/
def m_queued (d : Direction) (g : Globals) : Int :=
  match d with
  | .XAXIDMA_DMA_TO_DEVICE => g.m_queued_tx
  | .XAXIDMA_DEVICE_TO_DMA => g.m_queued_rx

/-- The stored handler of a direction: `m_handler_tx` or `m_handler_rx`. -/
def m_handler (d : Direction) (g : Globals) : AXI_DMA_HANDLER :=
  match d with
  | .XAXIDMA_DMA_TO_DEVICE => g.m_handler_tx
  | .XAXIDMA_DEVICE_TO_DMA => g.m_handler_rx

/-- The busy query of a direction: `axi_dma_queued_tx` or
`axi_dma_queued_rx`. -/
def axi_dma_queued (d : Direction) (g : Globals) : Bool :=
  match d with
  | .XAXIDMA_DMA_TO_DEVICE => axi_dma_queued_tx g
  | .XAXIDMA_DEVICE_TO_DMA => axi_dma_queued_rx g

/-- The submit operation of a direction: `axi_dma_queue_tx` or
`axi_dma_queue_rx`. -/
def axi_dma_queue (d : Direction) (be : Backend) (buff size : Nat)
    (handler : AXI_DMA_HANDLER) (s : State) : Int × State :=
  match d with
  | .XAXIDMA_DMA_TO_DEVICE => axi_dma_queue_tx be buff size handler s
  | .XAXIDMA_DEVICE_TO_DMA => axi_dma_queue_rx be buff size handler s

/-- The interrupt handler of a direction: `axi_dma_isr_tx` or
`axi_dma_isr_rx`. -/
def axi_dma_isr (d : Direction) (be : Backend) (uc : UserCode) (p : Params)
    (fuel : Nat) (s : State) : Option State :=
  match d with
  | .XAXIDMA_DMA_TO_DEVICE => axi_dma_isr_tx be uc p fuel s
  | .XAXIDMA_DEVICE_TO_DMA => axi_dma_isr_rx be uc p fuel s

/-- The globals with the channel of one direction cleared. -/
def Globals.clear (d : Direction) (g : Globals) : Globals :=
  match d with
  | .XAXIDMA_DMA_TO_DEVICE => { g with m_queued_tx := 0, m_handler_tx := none }
  | .XAXIDMA_DEVICE_TO_DMA => { g with m_queued_rx := 0, m_handler_rx := none }

/-! ## Operation sequences -/

/-- An operation on the driver: a submit by foreground code, an interrupt on
one of the two lines, or a foreground reset. -/
inductive Op where
  | submit (d : Direction) (buff : Nat) (size : Nat) (handler : AXI_DMA_HANDLER)
  | interrupt (d : Direction)
  | reset
deriving DecidableEq, Repr

/-- Run one operation to its return. -/
def Op.step (be : Backend) (uc : UserCode) (p : Params) (fuel : Nat) (o : Op)
    (s : State) : Option State :=
  match o with
  | .submit d buff size handler => some (axi_dma_queue d be buff size handler s).2
  | .interrupt d => axi_dma_isr d be uc p fuel s
  | .reset => axi_dma_reset be fuel s

/-- Run a finite sequence of operations, each to its return. -/
def run (be : Backend) (uc : UserCode) (p : Params) (fuel : Nat) :
    List Op → State → Option State
  | [], s => some s
  | o :: os, s =>
    match o.step be uc p fuel s with
    | none => none
    | some s => run be uc p fuel os s

/-- The state in which `axi_dma_initialize` leaves a driver that started with
globals `g0` and an empty log. -/
def initialized (be : Backend) (p : Params) (g0 : Globals) : State :=
  ( axi_dma_initialize be p ⟨g0, []⟩).2

/-! ## Reading the log -/

/-- A start-transfer call for direction `d`. -/
def Event.isStartOn (d : Direction) : Event → Bool
  | .XAxiDma_SimpleTransfer _ _ d' => decide (d' = d)
  | _ => false

/-- An invocation of a user handler by the interrupt handler of direction `d`. -/
def Event.isHandlerOn (d : Direction) : Event → Bool
  | .handler d' _ => decide (d' = d)
  | _ => false

/-- An invocation of a user handler. -/
def Event.isHandler : Event → Bool
  | .handler _ _ => true
  | _ => false

/-- A hardware reset. -/
def Event.isReset : Event → Bool
  | .XAxiDma_Reset => true
  | _ => false

/-- A read or an acknowledge of the pending-interrupt bits. -/
def Event.isIrqIo : Event → Bool
  | .XAxiDma_IntrGetIrq _ => true
  | .XAxiDma_IntrAckIrq _ _ => true
  | _ => false

/-- Number of submits on `d` that passed the busy check: each of them, and
nothing else, makes one start-transfer call for `d`. -/
def admitted (d : Direction) (t : List Entry) : Nat :=
  t.countP fun e => e.call.isStartOn d

/-- Number of user-handler invocations made by the interrupt handler of `d`. -/
def invoked (d : Direction) (t : List Entry) : Nat :=
  t.countP fun e => e.call.isHandlerOn d

/-- The channel invariant: a stored handler implies busy. -/
def Inv (g : Globals) : Prop :=
  ∀ d, m_handler d g ≠ none → m_queued d g ≠ 0

/-- The line printed by the interrupt handler of `d` on the error bit. -/
def irqErrorMsg : Direction → Msg
  | .XAXIDMA_DMA_TO_DEVICE => .isr_tx_irq_error
  | .XAXIDMA_DEVICE_TO_DMA => .isr_rx_irq_error

/-- The line printed by the submit of `d` on a busy channel. -/
def busyMsg : Direction → Msg
  | .XAXIDMA_DMA_TO_DEVICE => .queue_tx_busy
  | .XAXIDMA_DEVICE_TO_DMA => .queue_rx_busy

/-- The log entries of an interrupt handler of `d` that found the error bit, up
to and including the hardware reset issued by `axi_dma_reset`. -/
def errorPrefix (d : Direction) (be : Backend) (s : State) : List Entry :=
  [⟨s.g, .XAxiDma_IntrGetIrq d⟩,
   ⟨s.g, .XAxiDma_IntrAckIrq (be.XAxiDma_IntrGetIrq s.trace d) d⟩,
   ⟨s.g, .xil_printf (irqErrorMsg d)⟩,
   ⟨Globals.idle, .XAxiDma_Reset⟩]

/-- The line printed under `VERBOSE` by the interrupt handler of `d` on
completion. -/
def completedMsg : Direction → Msg
  | .XAXIDMA_DMA_TO_DEVICE => .isr_tx_completed
  | .XAXIDMA_DEVICE_TO_DMA => .isr_rx_completed

/-- The log entries of an interrupt handler of `d` that found a completion bit
and a stored handler `h`, up to and including the invocation of `h`: the read,
the acknowledge, the `VERBOSE` line, and the call of `h` made with the channel
of `d` already cleared. -/
def completionEntries (d : Direction) (be : Backend) (p : Params) (s : State) (h : Nat) :
    List Entry :=
  [⟨s.g, .XAxiDma_IntrGetIrq d⟩,
   ⟨s.g, .XAxiDma_IntrAckIrq (be.XAxiDma_IntrGetIrq s.trace d) d⟩]
    ++ (if p.VERBOSE then [⟨s.g, .xil_printf (completedMsg d)⟩] else [])
    ++ [⟨s.g.clear d, .handler d h⟩]

/-- The log entries of `k` reset-complete polls made with globals `g`. -/
def polls (g : Globals) (k : Nat) : List Entry :=
  List.replicate k ⟨g, .XAxiDma_ResetIsDone⟩

/-- The four log entries of `axi_dma_interrupts_disable` followed by
`axi_dma_interrupts_enable`. -/
def disableEnable (g : Globals) : List Entry :=
  [⟨g, .XAxiDma_IntrDisable XAXIDMA_IRQ_ALL_MASK .XAXIDMA_DMA_TO_DEVICE⟩,
   ⟨g, .XAxiDma_IntrDisable XAXIDMA_IRQ_ALL_MASK .XAXIDMA_DEVICE_TO_DMA⟩,
   ⟨g, .XAxiDma_IntrEnable XAXIDMA_IRQ_ALL_MASK .XAXIDMA_DMA_TO_DEVICE⟩,
   ⟨g, .XAxiDma_IntrEnable XAXIDMA_IRQ_ALL_MASK .XAXIDMA_DEVICE_TO_DMA⟩]

/-- The channel bookkeeping that every operation preserves: the channel
invariant now and at every logged call, busy counters that are 0 or 1, and for
each direction no more handler invocations (counting a stored handler as one
still to come) than admitted submits. -/
def Sound (s : State) : Prop :=
  Inv s.g ∧
  (∀ d, m_queued d s.g = 0 ∨ m_queued d s.g = 1) ∧
  (∀ e ∈ s.trace, Inv e.globals) ∧
  ∀ d, invoked d s.trace + (if m_handler d s.g = none then 0 else 1) ≤ admitted d s.trace

/-- The log `t'` is the log `t` followed by entries none of which reads or
acknowledges pending interrupts. -/
def ExtendsQuietly (t t' : List Entry) : Prop :=
  ∃ rest, t' = t ++ rest ∧ ∀ e ∈ rest, e.call.isIrqIo = false

/-! ## Concrete hardware and applications, for evaluation -/

/-- A backend with constant answers: `status` for every start, `irq` for every
pending-interrupt read, reset complete once the log has `k` entries. -/
def testBackend (status : Int) (irq : Nat) (k : Nat) : Backend where
  XAxiDma_SimpleTransfer := fun _ _ _ _ => status
  XAxiDma_IntrGetIrq := fun _ _ => irq
  XAxiDma_ResetIsDone := fun t => decide (k ≤ t.length)
  XAxiDma_LookupConfig := fun _ _ => some 1
  XAxiDma_HasSg := fun _ => false
  XIntc_In32 := fun _ _ => 0

/-- An application whose handlers make no driver call. -/
def quietCode : UserCode :=
  fun _ => []

/-- Sample build parameters. -/
def testParams : Params :=
  ⟨0, 0x41200000, 1, 2, false⟩

/-- A backend that accepts every start, reports transfer-complete on the
transmit line and an error on the receive line, and completes a reset on every
poll made when the length of the log is a multiple of three. -/
def sampleBackend : Backend where
  XAxiDma_SimpleTransfer := fun _ _ _ _ => XST_SUCCESS
  XAxiDma_IntrGetIrq := fun _ d =>
    match d with
    | .XAXIDMA_DMA_TO_DEVICE => XAXIDMA_IRQ_IOC_MASK
    | .XAXIDMA_DEVICE_TO_DMA => XAXIDMA_IRQ_ERROR_MASK
  XAxiDma_ResetIsDone := fun t => decide (t.length % 3 = 0)
  XAxiDma_LookupConfig := fun _ _ => some 1
  XAxiDma_HasSg := fun _ => false
  XIntc_In32 := fun _ _ => 0

/-- A sample session: a transmit submit, a second one while busy, the transmit
completion interrupt, a receive submit, an error interrupt on the receive
line, and a foreground reset. -/
def sampleOps : List Op :=
  [.submit .XAXIDMA_DMA_TO_DEVICE 4096 64 (some 5),
   .submit .XAXIDMA_DMA_TO_DEVICE 4096 64 (some 4),
   .interrupt .XAXIDMA_DMA_TO_DEVICE,
   .submit .XAXIDMA_DEVICE_TO_DMA 8192 32 (some 6),
   .interrupt .XAXIDMA_DEVICE_TO_DMA,
   .reset]

/-- A state with both channels busy, handlers `7` (receive) and `9`
(transmit). -/
def busyState : State :=
  ⟨⟨some 7, some 9, 1, 1⟩, []⟩

/-! ## Log shapes of reset and initialization -/

/-- A call to the interrupt controller: a vector registration, a read of the
enable register, or a write of the enable mask. -/
def Event.isIntc : Event → Bool
  | .XIntc_RegisterHandler _ _ _ => true
  | .XIntc_In32 _ => true
  | .XIntc_EnableIntr _ _ => true
  | _ => false

/-- An engine interrupt-disable or interrupt-enable call. -/
def Event.isIntrCtl : Event → Bool
  | .XAxiDma_IntrDisable _ _ => true
  | .XAxiDma_IntrEnable _ _ => true
  | _ => false

/-- The log entries of one run of `axi_dma_reset` whose loop makes `n + 1`
polls: the hardware reset, the polls, and the disable/enable sequence, all
made with the globals already cleared. -/
def resetEntries (n : Nat) : List Entry :=
  ⟨Globals.idle, .XAxiDma_Reset⟩ :: polls Globals.idle (n + 1) ++ disableEnable Globals.idle

/-- The log entries of `axi_dma_initialize` up to the scatter-gather query,
for a lookup that returned configuration `cfg`. -/
def initLookup (p : Params) (cfg : Nat) : List Entry :=
  [⟨Globals.idle, .xil_printf .initializing_dma⟩,
   ⟨Globals.idle, .XAxiDma_LookupConfig p.XPAR_AXI_DMA_0_DEVICE_ID⟩,
   ⟨Globals.idle, .XAxiDma_CfgInitialize cfg⟩,
   ⟨Globals.idle, .XAxiDma_HasSg⟩]

/-- The log entries of the two vector registrations made by
`axi_dma_initialize_interrupts` when called with globals `g`. -/
def bindEntries (p : Params) (BaseAddr : Nat) (g : Globals) : List Entry :=
  [⟨g, .XIntc_RegisterHandler BaseAddr p.XPAR_INTC_0_AXIDMA_0_MM2S_INTROUT_VEC_ID
      .axi_dma_isr_tx⟩,
   ⟨g, .XIntc_RegisterHandler BaseAddr p.XPAR_INTC_0_AXIDMA_0_S2MM_INTROUT_VEC_ID
      .axi_dma_isr_rx⟩]

/-- The enable-register value that `axi_dma_initialize_interrupts` reads when
called with log `t` and globals `g`. -/
def readMask (be : Backend) (p : Params) (BaseAddr : Nat) (t : List Entry) (g : Globals) :
    Nat :=
  be.XIntc_In32 (t ++ bindEntries p BaseAddr g) ((BaseAddr + XIN_IER_OFFSET) % 2 ^ 32)

/-- The log entries of a successful `axi_dma_initialize` started with log `t`,
for a lookup that returned configuration `cfg`. -/
def initEntries (be : Backend) (p : Params) (t : List Entry) (cfg : Nat) : List Entry :=
  initLookup p cfg
    ++ [⟨Globals.idle, .xil_printf .initializing_interrupts⟩]
    ++ bindEntries p p.XPAR_MICROBLAZE_0_INTC_BASEADDR Globals.idle
    ++ [⟨Globals.idle, .XIntc_In32 ((p.XPAR_MICROBLAZE_0_INTC_BASEADDR + XIN_IER_OFFSET)
          % 2 ^ 32)⟩,
        ⟨Globals.idle, .XIntc_EnableIntr p.XPAR_MICROBLAZE_0_INTC_BASEADDR
          (readMask be p p.XPAR_MICROBLAZE_0_INTC_BASEADDR
              (t ++ initLookup p cfg ++ [⟨Globals.idle, .xil_printf .initializing_interrupts⟩])
              Globals.idle
            ||| (1 <<< p.XPAR_INTC_0_AXIDMA_0_MM2S_INTROUT_VEC_ID) % 2 ^ 32
            ||| (1 <<< p.XPAR_INTC_0_AXIDMA_0_S2MM_INTROUT_VEC_ID) % 2 ^ 32)⟩]
    ++ disableEnable Globals.idle

/-- The submit call of direction `d`, as made from a handler body. -/
def Call.queue (d : Direction) (buff size : Nat) (handler : AXI_DMA_HANDLER) : Call :=
  match d with
  | .XAXIDMA_DMA_TO_DEVICE => .queue_tx buff size handler
  | .XAXIDMA_DEVICE_TO_DMA => .queue_rx buff size handler

/-- A backend for initialization: the lookup answers `cfg`, the engine reports
scatter-gather support `sg`, the enable register reads `ier`, and a reset is
complete once the log has `k` entries. -/
def initBackend (cfg : Option Nat) (sg : Bool) (ier : Nat) (k : Nat) : Backend where
  XAxiDma_SimpleTransfer := fun _ _ _ _ => XST_SUCCESS
  XAxiDma_IntrGetIrq := fun _ _ => XAXIDMA_IRQ_IOC_MASK
  XAxiDma_ResetIsDone := fun t => decide (k ≤ t.length)
  XAxiDma_LookupConfig := fun _ _ => cfg
  XAxiDma_HasSg := fun _ => sg
  XIntc_In32 := fun _ _ => ier

/-- An application whose handler `9` submits a new transmit transfer with
handler `4`, and whose other handlers make no driver call. -/
def resubmitCode : UserCode :=
  fun h => if h = 9 then [Call.queue .XAXIDMA_DMA_TO_DEVICE 8192 32 (some 4)] else []

/-! ## Runs observed up to the fuel

The functions above answer `none` when a polling loop does not end within the
fuel, and the log of the unfinished run is lost with it.  The variants below
are the same code, statement by statement, but return the state reached
together with a flag: `true` when the function returned, `false` when a
polling loop was still spinning after `fuel` polls.  In the second case the
state is the one after the last poll made, so its log is a prefix of the log
of the run that never returns. -/

/-- The loop `while (XAxiDma_ResetIsDone(&m_AxiDma) == 0) {}` of
`axi_dma_reset`, observed for at most `fuel` polls. -/
def resetWait_log (be : Backend) : Nat → State → State × Bool
  | 0, s => (s, false)
  | fuel + 1, s =>
    if be.XAxiDma_ResetIsDone s.trace then
      (log s .XAxiDma_ResetIsDone, true)
    else
      resetWait_log be fuel (log s .XAxiDma_ResetIsDone)

/-- C `axi_dma_reset`, observed up to the fuel. -/
def axi_dma_reset_log (be : Backend) (fuel : Nat) (s : State) : State × Bool :=
  let s := { s with g := { s.g with m_queued_tx := 0, m_queued_rx := 0 } }
  let s := { s with g := { s.g with m_handler_tx := none, m_handler_rx := none } }
  let s := log s .XAxiDma_Reset
  match resetWait_log be fuel s with
  | (s, false) => (s, false)
  | (s, true) =>
    let s := axi_dma_interrupts_disable s
    (axi_dma_interrupts_enable s, true)

/-- One driver call made by a completion handler, observed up to the fuel. -/
def Call.exec_log (be : Backend) (fuel : Nat) (c : Call) (s : State) : State × Bool :=
  match c with
  | .queue_tx buff size handler => ((axi_dma_queue_tx be buff size handler s).2, true)
  | .queue_rx buff size handler => ((axi_dma_queue_rx be buff size handler s).2, true)
  | .reset => axi_dma_reset_log be fuel s

/-- The body of a completion handler, observed up to the fuel: a call that
does not return ends the observation. -/
def runBody_log (be : Backend) (fuel : Nat) : List Call → State → State × Bool
  | [], s => (s, true)
  | c :: cs, s =>
    match c.exec_log be fuel s with
    | (s, false) => (s, false)
    | (s, true) => runBody_log be fuel cs s

/-- C `axi_dma_isr_tx`, observed up to the fuel. -/
def axi_dma_isr_tx_log (be : Backend) (uc : UserCode) (p : Params) (fuel : Nat)
    (s : State) : State × Bool :=
  let IrqStatus := be.XAxiDma_IntrGetIrq s.trace .XAXIDMA_DMA_TO_DEVICE
  let s := log s (.XAxiDma_IntrGetIrq .XAXIDMA_DMA_TO_DEVICE)
  let s := log s (.XAxiDma_IntrAckIrq IrqStatus .XAXIDMA_DMA_TO_DEVICE)
  if IrqStatus &&& XAXIDMA_IRQ_ALL_MASK = 0 then
    (s, true)
  else if IrqStatus &&& XAXIDMA_IRQ_ERROR_MASK ≠ 0 then
    let s := log s (.xil_printf .isr_tx_irq_error)
    axi_dma_reset_log be fuel s
  else if IrqStatus &&& (XAXIDMA_IRQ_DELAY_MASK ||| XAXIDMA_IRQ_IOC_MASK) ≠ 0 then
    let handler := s.g.m_handler_tx
    let s := if p.VERBOSE then log s (.xil_printf .isr_tx_completed) else s
    let s := { s with g := { s.g with m_queued_tx := 0 } }
    let s := { s with g := { s.g with m_handler_tx := none } }
    match handler with
    | some h => runBody_log be fuel (uc h) (log s (.handler .XAXIDMA_DMA_TO_DEVICE h))
    | none => (s, true)
  else
    (s, true)

/-- C `axi_dma_isr_rx`, observed up to the fuel. -/
def axi_dma_isr_rx_log (be : Backend) (uc : UserCode) (p : Params) (fuel : Nat)
    (s : State) : State × Bool :=
  let IrqStatus := be.XAxiDma_IntrGetIrq s.trace .XAXIDMA_DEVICE_TO_DMA
  let s := log s (.XAxiDma_IntrGetIrq .XAXIDMA_DEVICE_TO_DMA)
  let s := log s (.XAxiDma_IntrAckIrq IrqStatus .XAXIDMA_DEVICE_TO_DMA)
  if IrqStatus &&& XAXIDMA_IRQ_ALL_MASK = 0 then
    (s, true)
  else if IrqStatus &&& XAXIDMA_IRQ_ERROR_MASK ≠ 0 then
    let s := log s (.xil_printf .isr_rx_irq_error)
    axi_dma_reset_log be fuel s
  else if IrqStatus &&& (XAXIDMA_IRQ_DELAY_MASK ||| XAXIDMA_IRQ_IOC_MASK) ≠ 0 then
    let handler := s.g.m_handler_rx
    let s := if p.VERBOSE then log s (.xil_printf .isr_rx_completed) else s
    let s := { s with g := { s.g with m_queued_rx := 0 } }
    let s := { s with g := { s.g with m_handler_rx := none } }
    match handler with
    | some h => runBody_log be fuel (uc h) (log s (.handler .XAXIDMA_DEVICE_TO_DMA h))
    | none => (s, true)
  else
    (s, true)

/-- The interrupt handler of a direction, observed up to the fuel. -/
def axi_dma_isr_log (d : Direction) (be : Backend) (uc : UserCode) (p : Params)
    (fuel : Nat) (s : State) : State × Bool :=
  match d with
  | .XAXIDMA_DMA_TO_DEVICE => axi_dma_isr_tx_log be uc p fuel s
  | .XAXIDMA_DEVICE_TO_DMA => axi_dma_isr_rx_log be uc p fuel s

/-- What the functions of the driver section answer for an observed run: the
state when the run returned, `none` when it was still spinning. -/
def returned (r : State × Bool) : Option State :=
  if r.2 then some r.1 else none

/-- A backend whose reset never completes, and which reports an error
together with transfer-complete on both lines. -/
def hangBackend : Backend where
  XAxiDma_SimpleTransfer := fun _ _ _ _ => XST_SUCCESS
  XAxiDma_IntrGetIrq := fun _ _ => 0x5000
  XAxiDma_ResetIsDone := fun _ => false
  XAxiDma_LookupConfig := fun _ _ => some 1
  XAxiDma_HasSg := fun _ => false
  XIntc_In32 := fun _ _ => 0

/-! ## Auxiliary facts -/

theorem lor_eq_zero (a b : Nat) (h : a ||| b = 0) : a = 0 ∧ b = 0 := by
  constructor
  · apply Nat.eq_of_testBit_eq
    intro i
    have hi := congrArg (fun x => x.testBit i) h
    simp [Nat.testBit_or] at hi
    simp [hi.1]
  · apply Nat.eq_of_testBit_eq
    intro i
    have hi := congrArg (fun x => x.testBit i) h
    simp [Nat.testBit_or] at hi
    simp [hi.2]

theorem all_of_error (st : Nat) (h : st &&& XAXIDMA_IRQ_ERROR_MASK ≠ 0) :
    st &&& XAXIDMA_IRQ_ALL_MASK ≠ 0 := by
  have e : XAXIDMA_IRQ_ALL_MASK
      = XAXIDMA_IRQ_ERROR_MASK ||| (XAXIDMA_IRQ_DELAY_MASK ||| XAXIDMA_IRQ_IOC_MASK) := by
    decide
  rw [e, Nat.and_or_distrib_left]
  intro h0
  exact h (lor_eq_zero _ _ h0).1

theorem all_of_done (st : Nat)
    (h : st &&& (XAXIDMA_IRQ_DELAY_MASK ||| XAXIDMA_IRQ_IOC_MASK) ≠ 0) :
    st &&& XAXIDMA_IRQ_ALL_MASK ≠ 0 := by
  have e : XAXIDMA_IRQ_ALL_MASK
      = XAXIDMA_IRQ_ERROR_MASK ||| (XAXIDMA_IRQ_DELAY_MASK ||| XAXIDMA_IRQ_IOC_MASK) := by
    decide
  rw [e, Nat.and_or_distrib_left]
  intro h0
  exact h (lor_eq_zero _ _ h0).2

theorem done_of_either (st : Nat)
    (h : st &&& XAXIDMA_IRQ_DELAY_MASK ≠ 0 ∨ st &&& XAXIDMA_IRQ_IOC_MASK ≠ 0) :
    st &&& (XAXIDMA_IRQ_DELAY_MASK ||| XAXIDMA_IRQ_IOC_MASK) ≠ 0 := by
  rw [Nat.and_or_distrib_left]
  intro h0
  have h1 := lor_eq_zero _ _ h0
  rcases h with h | h
  · exact h h1.1
  · exact h h1.2

/-! ## Transfer admission -/

/-- C1 (defect of the code): on an idle channel whose start the backend
rejects, the submit of either direction returns failure but rolls nothing
back: the channel stays busy and the rejected handler stays stored. -/
theorem queue_start_rejected_no_rollback :
    (m_queued .XAXIDMA_DMA_TO_DEVICE boot.g = 0 ∧
      (axi_dma_queue_tx (testBackend XST_FAILURE 0 0) 4096 64 (some 7) boot).1 = XST_FAILURE ∧
      axi_dma_queued_tx
        (axi_dma_queue_tx (testBackend XST_FAILURE 0 0) 4096 64 (some 7) boot).2.g = true ∧
      (axi_dma_queue_tx (testBackend XST_FAILURE 0 0) 4096 64 (some 7) boot).2.g.m_handler_tx
        = some 7) ∧
    (m_queued .XAXIDMA_DEVICE_TO_DMA boot.g = 0 ∧
      (axi_dma_queue_rx (testBackend XST_FAILURE 0 0) 4096 64 (some 7) boot).1 = XST_FAILURE ∧
      axi_dma_queued_rx
        (axi_dma_queue_rx (testBackend XST_FAILURE 0 0) 4096 64 (some 7) boot).2.g = true ∧
      (axi_dma_queue_rx (testBackend XST_FAILURE 0 0) 4096 64 (some 7) boot).2.g.m_handler_rx
        = some 7) := by
  decide

/-- C2: a submit on a busy channel, whatever its arguments, returns failure,
leaves all four globals as they were, and adds to the log only the diagnostic
line: no start-transfer call is made. -/
theorem queue_busy_rejected (d : Direction) (be : Backend) (buff size : Nat)
    (handler : AXI_DMA_HANDLER) (s : State) (hbusy : m_queued d s.g ≠ 0) :
    (axi_dma_queue d be buff size handler s).1 = XST_FAILURE ∧
    (axi_dma_queue d be buff size handler s).2.g = s.g ∧
    (axi_dma_queue d be buff size handler s).2.trace
      = s.trace ++ [⟨s.g, .xil_printf (busyMsg d)⟩] ∧
    admitted d (axi_dma_queue d be buff size handler s).2.trace = admitted d s.trace := by
  cases d <;>
    simp [axi_dma_queue, axi_dma_queue_tx, axi_dma_queue_rx, axi_dma_queued_tx,
      axi_dma_queued_rx, m_queued, log, busyMsg, admitted, Event.isStartOn] at hbusy ⊢ <;>
    simp [hbusy]

/-- Witness for C2: a busy transmit channel with handler `9` rejects a submit
with handler `5`. -/
theorem queue_busy_rejected_witness :
    m_queued .XAXIDMA_DMA_TO_DEVICE busyState.g ≠ 0 ∧
    (axi_dma_queue .XAXIDMA_DMA_TO_DEVICE (testBackend XST_SUCCESS 0 0) 4096 64 (some 5)
      busyState).2.g = busyState.g :=
  ⟨by decide,
   (queue_busy_rejected .XAXIDMA_DMA_TO_DEVICE (testBackend XST_SUCCESS 0 0) 4096 64 (some 5)
      busyState (by decide)).2.1⟩

/-- C3: a submit on an idle channel whose start the backend accepts returns
success; afterwards the channel is busy and stores the given handler; the log
grows by exactly one start-transfer call, carrying the given buffer, size and
direction, and the globals recorded at that call already hold the busy/handler
pair. -/
theorem queue_idle_accepted (d : Direction) (be : Backend) (buff size : Nat)
    (handler : AXI_DMA_HANDLER) (s : State) (hidle : m_queued d s.g = 0)
    (hok : be.XAxiDma_SimpleTransfer s.trace buff size d = XST_SUCCESS) :
    ∃ s', axi_dma_queue d be buff size handler s = (XST_SUCCESS, s') ∧
      axi_dma_queued d s'.g = true ∧ m_queued d s'.g = 1 ∧ m_handler d s'.g = handler ∧
      s'.trace = s.trace ++ [⟨s'.g, .XAxiDma_SimpleTransfer buff size d⟩] := by
  cases d <;>
    simp [axi_dma_queue, axi_dma_queue_tx, axi_dma_queue_rx, axi_dma_queued_tx,
      axi_dma_queued_rx, axi_dma_queued, m_queued, m_handler, log] at hidle hok ⊢ <;>
    simp [hidle, hok]

/-- Witness for C3: the first transmit submit after boot, on an accepting
backend. -/
theorem queue_idle_accepted_witness :
    ∃ s', axi_dma_queue .XAXIDMA_DMA_TO_DEVICE (testBackend XST_SUCCESS 0 0) 4096 64 (some 5)
        boot = (XST_SUCCESS, s') ∧
      axi_dma_queued .XAXIDMA_DMA_TO_DEVICE s'.g = true ∧
      m_queued .XAXIDMA_DMA_TO_DEVICE s'.g = 1 ∧
      m_handler .XAXIDMA_DMA_TO_DEVICE s'.g = some 5 ∧
      s'.trace = boot.trace ++
        [⟨s'.g, .XAxiDma_SimpleTransfer 4096 64 .XAXIDMA_DMA_TO_DEVICE⟩] :=
  queue_idle_accepted .XAXIDMA_DMA_TO_DEVICE (testBackend XST_SUCCESS 0 0) 4096 64 (some 5)
    boot (by decide) (by decide)

/-! ## The reset loop -/

theorem polls_succ (g : Globals) (k : Nat) :
    polls g (k + 1) = ⟨g, .XAxiDma_ResetIsDone⟩ :: polls g k := by
  simp [polls, List.replicate_succ]

theorem resetWait_polls (be : Backend) (n : Nat) :
    ∀ (fuel : Nat) (s : State), n < fuel →
      (∀ k, k < n → be.XAxiDma_ResetIsDone (s.trace ++ polls s.g k) = false) →
      be.XAxiDma_ResetIsDone (s.trace ++ polls s.g n) = true →
      resetWait be fuel s = some ⟨s.g, s.trace ++ polls s.g (n + 1)⟩ := by
  induction n with
  | zero =>
    intro fuel s hf _ htrue
    obtain ⟨f, rfl⟩ : ∃ f, fuel = f + 1 := ⟨fuel - 1, by omega⟩
    simp [polls] at htrue
    simp [resetWait, htrue, log, polls]
  | succ n ih =>
    intro fuel s hf hfalse htrue
    obtain ⟨f, rfl⟩ : ∃ f, fuel = f + 1 := ⟨fuel - 1, by omega⟩
    have h0 : be.XAxiDma_ResetIsDone s.trace = false := by
      have := hfalse 0 (by omega)
      simpa [polls] using this
    have hrec := ih f (log s .XAxiDma_ResetIsDone) (by omega)
      (by
        intro k hk
        have := hfalse (k + 1) (by omega)
        simpa [log, polls_succ] using this)
      (by simpa [log, polls_succ] using htrue)
    simp only [log] at hrec
    simp [resetWait, h0, hrec, log, polls_succ]

theorem axi_dma_reset_polls (be : Backend) (fuel : Nat) (s : State) (n : Nat) (hn : n < fuel)
    (hfalse : ∀ k, k < n → be.XAxiDma_ResetIsDone
      (s.trace ++ ⟨Globals.idle, .XAxiDma_Reset⟩ :: polls Globals.idle k) = false)
    (htrue : be.XAxiDma_ResetIsDone
      (s.trace ++ ⟨Globals.idle, .XAxiDma_Reset⟩ :: polls Globals.idle n) = true) :
    axi_dma_reset be fuel s = some ⟨Globals.idle,
      s.trace ++ (⟨Globals.idle, .XAxiDma_Reset⟩ :: polls Globals.idle (n + 1)
        ++ disableEnable Globals.idle)⟩ := by
  have hw := resetWait_polls be n fuel
    ⟨Globals.idle, s.trace ++ [⟨Globals.idle, .XAxiDma_Reset⟩]⟩ hn
    (by intro k hk; simpa using hfalse k hk) (by simpa using htrue)
  simp [axi_dma_reset, log, Globals.idle] at hw ⊢
  simp [hw, axi_dma_interrupts_disable, axi_dma_interrupts_enable, log, disableEnable,
    Globals.idle]

/-! ## The branches of the interrupt handlers -/

theorem isr_spurious_aux (d : Direction) (be : Backend) (uc : UserCode) (p : Params)
    (fuel : Nat) (s : State)
    (hnone : be.XAxiDma_IntrGetIrq s.trace d &&& XAXIDMA_IRQ_ALL_MASK = 0) :
    axi_dma_isr d be uc p fuel s
      = some ⟨s.g, s.trace ++
          [⟨s.g, .XAxiDma_IntrGetIrq d⟩,
           ⟨s.g, .XAxiDma_IntrAckIrq (be.XAxiDma_IntrGetIrq s.trace d) d⟩]⟩ := by
  cases d <;>
    simp [axi_dma_isr, axi_dma_isr_tx, axi_dma_isr_rx, log] at hnone ⊢ <;>
    simp [hnone]

theorem isr_error_aux (d : Direction) (be : Backend) (uc : UserCode) (p : Params)
    (fuel : Nat) (s : State)
    (herr : be.XAxiDma_IntrGetIrq s.trace d &&& XAXIDMA_IRQ_ERROR_MASK ≠ 0) :
    axi_dma_isr d be uc p fuel s
      = axi_dma_reset be fuel ⟨s.g, s.trace ++ [⟨s.g, .XAxiDma_IntrGetIrq d⟩,
          ⟨s.g, .XAxiDma_IntrAckIrq (be.XAxiDma_IntrGetIrq s.trace d) d⟩,
          ⟨s.g, .xil_printf (irqErrorMsg d)⟩]⟩ := by
  have hall := all_of_error _ herr
  cases d <;>
    simp [axi_dma_isr, axi_dma_isr_tx, axi_dma_isr_rx, log, irqErrorMsg] at hall herr ⊢ <;>
    simp [hall, herr]

theorem isr_nothing_aux (d : Direction) (be : Backend) (uc : UserCode) (p : Params)
    (fuel : Nat) (s : State)
    (herr : be.XAxiDma_IntrGetIrq s.trace d &&& XAXIDMA_IRQ_ERROR_MASK = 0)
    (hd : be.XAxiDma_IntrGetIrq s.trace d
      &&& (XAXIDMA_IRQ_DELAY_MASK ||| XAXIDMA_IRQ_IOC_MASK) = 0) :
    axi_dma_isr d be uc p fuel s
      = some ⟨s.g, s.trace ++
          [⟨s.g, .XAxiDma_IntrGetIrq d⟩,
           ⟨s.g, .XAxiDma_IntrAckIrq (be.XAxiDma_IntrGetIrq s.trace d) d⟩]⟩ := by
  cases d <;>
    simp [axi_dma_isr, axi_dma_isr_tx, axi_dma_isr_rx, log] at herr hd ⊢ <;>
    simp [herr, hd]

theorem isr_completion_aux (d : Direction) (be : Backend) (uc : UserCode) (p : Params)
    (fuel : Nat) (s : State) (h : Nat)
    (herr : be.XAxiDma_IntrGetIrq s.trace d &&& XAXIDMA_IRQ_ERROR_MASK = 0)
    (hd : be.XAxiDma_IntrGetIrq s.trace d
      &&& (XAXIDMA_IRQ_DELAY_MASK ||| XAXIDMA_IRQ_IOC_MASK) ≠ 0)
    (hh : m_handler d s.g = some h) :
    axi_dma_isr d be uc p fuel s
      = runBody be fuel (uc h) ⟨s.g.clear d, s.trace ++ completionEntries d be p s h⟩ := by
  have hall := all_of_done _ hd
  cases d <;> cases hv : p.VERBOSE <;>
    simp [axi_dma_isr, axi_dma_isr_tx, axi_dma_isr_rx, m_handler, log, hv,
      completionEntries, Globals.clear, completedMsg] at hh hall hd herr ⊢ <;>
    simp [hall, hd, herr, hh]

theorem isr_completion_none_aux (d : Direction) (be : Backend) (uc : UserCode) (p : Params)
    (fuel : Nat) (s : State)
    (herr : be.XAxiDma_IntrGetIrq s.trace d &&& XAXIDMA_IRQ_ERROR_MASK = 0)
    (hd : be.XAxiDma_IntrGetIrq s.trace d
      &&& (XAXIDMA_IRQ_DELAY_MASK ||| XAXIDMA_IRQ_IOC_MASK) ≠ 0)
    (hh : m_handler d s.g = none) :
    axi_dma_isr d be uc p fuel s
      = some ⟨s.g.clear d, s.trace ++ ([⟨s.g, .XAxiDma_IntrGetIrq d⟩,
          ⟨s.g, .XAxiDma_IntrAckIrq (be.XAxiDma_IntrGetIrq s.trace d) d⟩]
          ++ (if p.VERBOSE then [⟨s.g, .xil_printf (completedMsg d)⟩] else []))⟩ := by
  have hall := all_of_done _ hd
  cases d <;> cases hv : p.VERBOSE <;>
    simp [axi_dma_isr, axi_dma_isr_tx, axi_dma_isr_rx, m_handler, log, hv,
      Globals.clear, completedMsg] at hh hall hd herr ⊢ <;>
    simp [hall, hd, herr, hh]

/-! ## The interrupt handlers, branch by branch -/


/-- C4: on a pending word with the error bit clear and the delay or the
transfer-complete bit set, the interrupt handler of `d`, run on a channel that
stores handler `h`, reads and acknowledges, clears the channel, and only then
calls `h`, once; it issues no hardware reset, and whatever follows the call of
`h` is the body of `h`.  When the body makes no driver call the interrupt
handler returns with the channel idle.  The pending word is arbitrary within
the hypotheses, so delay only, transfer-complete only and both behave alike. -/
theorem isr_completion (d : Direction) (be : Backend) (uc : UserCode) (p : Params)
    (fuel : Nat) (s : State) (h : Nat)
    (herr : be.XAxiDma_IntrGetIrq s.trace d &&& XAXIDMA_IRQ_ERROR_MASK = 0)
    (hdone : be.XAxiDma_IntrGetIrq s.trace d &&& XAXIDMA_IRQ_DELAY_MASK ≠ 0 ∨
      be.XAxiDma_IntrGetIrq s.trace d &&& XAXIDMA_IRQ_IOC_MASK ≠ 0)
    (hh : m_handler d s.g = some h) :
    axi_dma_isr d be uc p fuel s
      = runBody be fuel (uc h) ⟨s.g.clear d, s.trace ++ completionEntries d be p s h⟩ ∧
    (completionEntries d be p s h).getLast? = some ⟨s.g.clear d, .handler d h⟩ ∧
    axi_dma_queued d (s.g.clear d) = false ∧
    m_handler d (s.g.clear d) = none ∧
    (completionEntries d be p s h).countP (fun e => e.call.isHandler) = 1 ∧
    (completionEntries d be p s h).countP (fun e => e.call.isReset) = 0 ∧
    (uc h = [] →
      axi_dma_isr d be uc p fuel s
        = some ⟨s.g.clear d, s.trace ++ completionEntries d be p s h⟩) := by
  have key := isr_completion_aux d be uc p fuel s h herr (done_of_either _ hdone) hh
  refine ⟨key, ?_, ?_, ?_, ?_, ?_, ?_⟩
  · cases hv : p.VERBOSE <;> simp [completionEntries, hv]
  · cases d <;> simp [axi_dma_queued, axi_dma_queued_tx, axi_dma_queued_rx, Globals.clear]
  · cases d <;> simp [m_handler, Globals.clear]
  · cases hv : p.VERBOSE <;> simp [completionEntries, hv, Event.isHandler]
  · cases hv : p.VERBOSE <;> simp [completionEntries, hv, Event.isReset]
  · intro hq
    rw [key, hq]
    rfl

/-- Witness for C4: a transmit completion (transfer-complete bit only) on a
busy channel whose handler `9` makes no driver call. -/
theorem isr_completion_witness :
    axi_dma_isr .XAXIDMA_DMA_TO_DEVICE (testBackend XST_SUCCESS 4096 0) quietCode testParams 1
        busyState
      = some ⟨busyState.g.clear .XAXIDMA_DMA_TO_DEVICE,
          busyState.trace ++ completionEntries .XAXIDMA_DMA_TO_DEVICE
            (testBackend XST_SUCCESS 4096 0) testParams busyState 9⟩ :=
  (isr_completion .XAXIDMA_DMA_TO_DEVICE (testBackend XST_SUCCESS 4096 0) quietCode testParams 1
    busyState 9 (by decide) (Or.inr (by decide)) (by decide)).2.2.2.2.2.2 rfl

/-- C5: on a pending word with the error bit set (whatever the other bits and
whatever the state of the two channels), and a backend whose reset completes
at poll `n + 1` within the fuel, the interrupt handler of `d` returns with all
four globals cleared; the log grows by the read, the acknowledge, the
diagnostic line, one hardware reset, the polls, and the disable/enable
sequence: one reset, no user handler. -/
theorem isr_error_resets (d : Direction) (be : Backend) (uc : UserCode) (p : Params)
    (fuel : Nat) (s : State) (n : Nat) (hn : n < fuel)
    (herr : be.XAxiDma_IntrGetIrq s.trace d &&& XAXIDMA_IRQ_ERROR_MASK ≠ 0)
    (hfalse : ∀ k, k < n → be.XAxiDma_ResetIsDone
      (s.trace ++ errorPrefix d be s ++ polls Globals.idle k) = false)
    (htrue : be.XAxiDma_ResetIsDone
      (s.trace ++ errorPrefix d be s ++ polls Globals.idle n) = true) :
    ∃ s', axi_dma_isr d be uc p fuel s = some s' ∧
      (∀ d', m_queued d' s'.g = 0 ∧ m_handler d' s'.g = none ∧
        axi_dma_queued d' s'.g = false) ∧
      s'.trace = s.trace ++
        (errorPrefix d be s ++ polls Globals.idle (n + 1) ++ disableEnable Globals.idle) ∧
      (errorPrefix d be s ++ polls Globals.idle (n + 1) ++ disableEnable Globals.idle).countP
        (fun e => e.call.isReset) = 1 ∧
      (errorPrefix d be s ++ polls Globals.idle (n + 1) ++ disableEnable Globals.idle).countP
        (fun e => e.call.isHandler) = 0 := by
  have hr := axi_dma_reset_polls be fuel
    ⟨s.g, s.trace ++ [⟨s.g, .XAxiDma_IntrGetIrq d⟩,
      ⟨s.g, .XAxiDma_IntrAckIrq (be.XAxiDma_IntrGetIrq s.trace d) d⟩,
      ⟨s.g, .xil_printf (irqErrorMsg d)⟩]⟩ n hn
    (by intro k hk; simpa [errorPrefix] using hfalse k hk)
    (by simpa [errorPrefix] using htrue)
  refine ⟨⟨Globals.idle, s.trace ++
    (errorPrefix d be s ++ polls Globals.idle (n + 1) ++ disableEnable Globals.idle)⟩,
    ?_, ?_, rfl, ?_, ?_⟩
  · rw [isr_error_aux d be uc p fuel s herr, hr]
    simp [errorPrefix]
  · intro d'
    cases d' <;>
      simp [m_queued, m_handler, axi_dma_queued, axi_dma_queued_tx, axi_dma_queued_rx,
        Globals.idle]
  · simp [errorPrefix, polls, disableEnable, Event.isReset, List.countP_replicate]
  · simp [errorPrefix, polls, disableEnable, Event.isHandler, List.countP_replicate]

/-- Witness for C5: an error interrupt on the receive line with both channels
busy, on a backend whose reset completes at the third poll. -/
theorem isr_error_resets_witness :
    ∃ s', axi_dma_isr .XAXIDMA_DEVICE_TO_DMA (testBackend XST_SUCCESS 0x5000 6) quietCode
        testParams 5 busyState = some s' ∧
      (∀ d', m_queued d' s'.g = 0 ∧ m_handler d' s'.g = none ∧
        axi_dma_queued d' s'.g = false) ∧
      s'.trace = busyState.trace ++
        (errorPrefix .XAXIDMA_DEVICE_TO_DMA (testBackend XST_SUCCESS 0x5000 6) busyState
          ++ polls Globals.idle (2 + 1) ++ disableEnable Globals.idle) ∧
      (errorPrefix .XAXIDMA_DEVICE_TO_DMA (testBackend XST_SUCCESS 0x5000 6) busyState
          ++ polls Globals.idle (2 + 1) ++ disableEnable Globals.idle).countP
        (fun e => e.call.isReset) = 1 ∧
      (errorPrefix .XAXIDMA_DEVICE_TO_DMA (testBackend XST_SUCCESS 0x5000 6) busyState
          ++ polls Globals.idle (2 + 1) ++ disableEnable Globals.idle).countP
        (fun e => e.call.isHandler) = 0 :=
  isr_error_resets .XAXIDMA_DEVICE_TO_DMA (testBackend XST_SUCCESS 0x5000 6) quietCode
    testParams 5 busyState 2 (by decide) (by decide)
    (by
      intro k hk
      have hk2 : k = 0 ∨ k = 1 := by omega
      rcases hk2 with rfl | rfl <;> decide)
    (by decide)

/-- C6: on a pending word with none of the three interrupt bits set, the
interrupt handler of `d` returns with the globals unchanged, and the log grows
by exactly the read and one acknowledge of the word that was read, both for
direction `d`: no user handler, no reset. -/
theorem isr_spurious (d : Direction) (be : Backend) (uc : UserCode) (p : Params)
    (fuel : Nat) (s : State)
    (hnone : be.XAxiDma_IntrGetIrq s.trace d &&& XAXIDMA_IRQ_ALL_MASK = 0) :
    axi_dma_isr d be uc p fuel s
      = some ⟨s.g, s.trace ++
          [⟨s.g, .XAxiDma_IntrGetIrq d⟩,
           ⟨s.g, .XAxiDma_IntrAckIrq (be.XAxiDma_IntrGetIrq s.trace d) d⟩]⟩ :=
  isr_spurious_aux d be uc p fuel s hnone

/-- Witness for C6: pending word `0x0fff` on the transmit line with both
channels busy. -/
theorem isr_spurious_witness :
    axi_dma_isr .XAXIDMA_DMA_TO_DEVICE (testBackend XST_SUCCESS 0x0fff 0) quietCode testParams 0
        busyState
      = some ⟨busyState.g, busyState.trace ++
          [⟨busyState.g, .XAxiDma_IntrGetIrq .XAXIDMA_DMA_TO_DEVICE⟩,
           ⟨busyState.g, .XAxiDma_IntrAckIrq 0x0fff .XAXIDMA_DMA_TO_DEVICE⟩]⟩ :=
  isr_spurious .XAXIDMA_DMA_TO_DEVICE (testBackend XST_SUCCESS 0x0fff 0) quietCode testParams 0
    busyState (by decide)

/-! ## Shape of every returning run -/

theorem resetWait_some (be : Backend) :
    ∀ (fuel : Nat) (s s' : State), resetWait be fuel s = some s' →
      ∃ k, s' = ⟨s.g, s.trace ++ polls s.g (k + 1)⟩ := by
  intro fuel
  induction fuel with
  | zero => intro s s' h; simp [resetWait] at h
  | succ f ih =>
    intro s s' h
    unfold resetWait at h
    split_ifs at h with hd
    · refine ⟨0, ?_⟩
      simp only [Option.some.injEq] at h
      simp [← h, log, polls]
    · obtain ⟨k, hk⟩ := ih _ _ h
      refine ⟨k + 1, ?_⟩
      rw [hk]
      simp [log, polls_succ]

theorem axi_dma_reset_some (be : Backend) (fuel : Nat) (s s' : State)
    (h : axi_dma_reset be fuel s = some s') :
    ∃ k, s' = ⟨Globals.idle,
      s.trace ++ (⟨Globals.idle, .XAxiDma_Reset⟩ :: polls Globals.idle (k + 1)
        ++ disableEnable Globals.idle)⟩ := by
  unfold axi_dma_reset at h
  simp only [] at h
  split at h
  · simp at h
  · rename_i s1 hw
    obtain ⟨k, hk⟩ := resetWait_some be _ _ _ hw
    refine ⟨k, ?_⟩
    simp only [Option.some.injEq] at h
    rw [← h, hk]
    simp [axi_dma_interrupts_disable, axi_dma_interrupts_enable, log, disableEnable,
      Globals.idle]

theorem axi_dma_queue_cases (d : Direction) (be : Backend) (buff size : Nat)
    (handler : AXI_DMA_HANDLER) (s : State) :
    (m_queued d s.g ≠ 0 ∧
      (axi_dma_queue d be buff size handler s).2
        = ⟨s.g, s.trace ++ [⟨s.g, .xil_printf (busyMsg d)⟩]⟩) ∨
    (m_queued d s.g = 0 ∧ ∃ g', m_queued d g' = 1 ∧ m_handler d g' = handler ∧
      m_queued d.other g' = m_queued d.other s.g ∧
      m_handler d.other g' = m_handler d.other s.g ∧
      ((axi_dma_queue d be buff size handler s).2
          = ⟨g', s.trace ++ [⟨g', .XAxiDma_SimpleTransfer buff size d⟩]⟩ ∨
        (axi_dma_queue d be buff size handler s).2
          = ⟨g', s.trace ++ [⟨g', .XAxiDma_SimpleTransfer buff size d⟩,
              ⟨g', .xil_printf .simple_transfer_fails⟩]⟩)) := by
  by_cases hq : m_queued d s.g = 0
  · right
    refine ⟨hq, ?_⟩
    cases d
    · refine ⟨{ s.g with m_queued_tx := s.g.m_queued_tx + 1, m_handler_tx := handler }, ?_⟩
      by_cases hst : be.XAxiDma_SimpleTransfer s.trace buff size .XAXIDMA_DMA_TO_DEVICE
          = XST_SUCCESS <;>
        simp [axi_dma_queue, axi_dma_queue_tx, axi_dma_queued_tx, m_queued, m_handler, log,
          Direction.other] at hq ⊢ <;>
        simp [hq, hst]
    · refine ⟨{ s.g with m_queued_rx := s.g.m_queued_rx + 1, m_handler_rx := handler }, ?_⟩
      by_cases hst : be.XAxiDma_SimpleTransfer s.trace buff size .XAXIDMA_DEVICE_TO_DMA
          = XST_SUCCESS <;>
        simp [axi_dma_queue, axi_dma_queue_rx, axi_dma_queued_rx, m_queued, m_handler, log,
          Direction.other] at hq ⊢ <;>
        simp [hq, hst]
  · left
    refine ⟨hq, ?_⟩
    cases d <;>
      simp [axi_dma_queue, axi_dma_queue_tx, axi_dma_queue_rx, axi_dma_queued_tx,
        axi_dma_queued_rx, m_queued, log, busyMsg] at hq ⊢ <;>
      simp [hq]

theorem axi_dma_isr_cases (d : Direction) (be : Backend) (uc : UserCode) (p : Params)
    (fuel : Nat) (s s' : State) (h : axi_dma_isr d be uc p fuel s = some s') :
    s' = ⟨s.g, s.trace ++ [⟨s.g, .XAxiDma_IntrGetIrq d⟩,
        ⟨s.g, .XAxiDma_IntrAckIrq (be.XAxiDma_IntrGetIrq s.trace d) d⟩]⟩ ∨
    (be.XAxiDma_IntrGetIrq s.trace d &&& XAXIDMA_IRQ_ERROR_MASK ≠ 0 ∧
      axi_dma_reset be fuel ⟨s.g, s.trace ++ [⟨s.g, .XAxiDma_IntrGetIrq d⟩,
        ⟨s.g, .XAxiDma_IntrAckIrq (be.XAxiDma_IntrGetIrq s.trace d) d⟩,
        ⟨s.g, .xil_printf (irqErrorMsg d)⟩]⟩ = some s') ∨
    (be.XAxiDma_IntrGetIrq s.trace d &&& XAXIDMA_IRQ_ERROR_MASK = 0 ∧
      ∃ hnd, m_handler d s.g = some hnd ∧
        runBody be fuel (uc hnd) ⟨s.g.clear d, s.trace ++ completionEntries d be p s hnd⟩
          = some s') ∨
    (be.XAxiDma_IntrGetIrq s.trace d &&& XAXIDMA_IRQ_ERROR_MASK = 0 ∧
      m_handler d s.g = none ∧
      s' = ⟨s.g.clear d, s.trace ++ ([⟨s.g, .XAxiDma_IntrGetIrq d⟩,
        ⟨s.g, .XAxiDma_IntrAckIrq (be.XAxiDma_IntrGetIrq s.trace d) d⟩]
        ++ (if p.VERBOSE then [⟨s.g, .xil_printf (completedMsg d)⟩] else []))⟩) := by
  by_cases h2 : be.XAxiDma_IntrGetIrq s.trace d &&& XAXIDMA_IRQ_ERROR_MASK = 0
  · by_cases h3 : be.XAxiDma_IntrGetIrq s.trace d
        &&& (XAXIDMA_IRQ_DELAY_MASK ||| XAXIDMA_IRQ_IOC_MASK) = 0
    · left
      rw [isr_nothing_aux d be uc p fuel s h2 h3] at h
      simpa using h.symm
    · right; right
      cases hm : m_handler d s.g with
      | none =>
        right
        rw [isr_completion_none_aux d be uc p fuel s h2 h3 hm] at h
        exact ⟨h2, rfl, by simpa using h.symm⟩
      | some hnd =>
        left
        rw [isr_completion_aux d be uc p fuel s hnd h2 h3 hm] at h
        exact ⟨h2, hnd, rfl, h⟩
  · right; left
    rw [isr_error_aux d be uc p fuel s h2] at h
    exact ⟨h2, h⟩

theorem isr_returns_of_quiet (d : Direction) (be : Backend) (uc : UserCode) (p : Params)
    (fuel : Nat) (s : State) (hquiet : ∀ h, uc h = [])
    (herr : be.XAxiDma_IntrGetIrq s.trace d &&& XAXIDMA_IRQ_ERROR_MASK = 0) :
    ∃ s', axi_dma_isr d be uc p fuel s = some s' := by
  by_cases h3 : be.XAxiDma_IntrGetIrq s.trace d
      &&& (XAXIDMA_IRQ_DELAY_MASK ||| XAXIDMA_IRQ_IOC_MASK) = 0
  · exact ⟨_, isr_nothing_aux d be uc p fuel s herr h3⟩
  · cases hm : m_handler d s.g with
    | none => exact ⟨_, isr_completion_none_aux d be uc p fuel s herr h3 hm⟩
    | some hnd =>
      rw [isr_completion_aux d be uc p fuel s hnd herr h3 hm, hquiet hnd]
      exact ⟨_, rfl⟩

/-! ## The bookkeeping invariant -/

theorem inv_idle : Inv Globals.idle := by
  intro d
  cases d <;> simp [m_handler, Globals.idle]

theorem sound_step (s : State) (g' : Globals) (new : List Entry) (hs : Sound s)
    (hinv : Inv g') (hb : ∀ d, m_queued d g' = 0 ∨ m_queued d g' = 1)
    (hnew : ∀ e ∈ new, Inv e.globals)
    (hcnt : ∀ d, invoked d new + (if m_handler d g' = none then 0 else 1)
      ≤ (if m_handler d s.g = none then 0 else 1) + admitted d new) :
    Sound ⟨g', s.trace ++ new⟩ := by
  obtain ⟨_, _, h3, h4⟩ := hs
  refine ⟨hinv, hb, ?_, ?_⟩
  · intro e he
    rcases List.mem_append.1 he with he | he
    · exact h3 e he
    · exact hnew e he
  · intro d
    have h5 := h4 d
    have h6 := hcnt d
    simp only [invoked, admitted, List.countP_append] at *
    omega

theorem sound_reset (be : Backend) (fuel : Nat) (s s' : State) (hs : Sound s)
    (h : axi_dma_reset be fuel s = some s') : Sound s' := by
  obtain ⟨k, rfl⟩ := axi_dma_reset_some be fuel s s' h
  apply sound_step s _ _ hs inv_idle
  · intro d
    cases d <;> simp [m_queued, Globals.idle]
  · intro e he
    have : e.globals = Globals.idle := by
      simp [polls, disableEnable] at he
      rcases he with rfl | ⟨_, rfl⟩ | rfl | rfl | rfl | rfl <;> rfl
    rw [this]
    exact inv_idle
  · intro d
    have : m_handler d Globals.idle = none := by cases d <;> rfl
    simp [this, invoked, polls, disableEnable, Event.isHandlerOn, List.countP_replicate]

theorem sound_queue (d : Direction) (be : Backend) (buff size : Nat)
    (handler : AXI_DMA_HANDLER) (s : State) (hs : Sound s) :
    Sound (axi_dma_queue d be buff size handler s).2 := by
  rcases axi_dma_queue_cases d be buff size handler s with
    ⟨_, he⟩ | ⟨hq, g', hq', hh', hoq, hoh, he⟩
  · rw [he]
    apply sound_step s _ _ hs hs.1 hs.2.1
    · intro e hmem
      simp at hmem
      rw [hmem]
      exact hs.1
    · intro d'
      simp [invoked, Event.isHandlerOn]
  · have hnone : m_handler d s.g = none := by
      by_contra hne
      exact hs.1 d hne hq
    have hinv : Inv g' := by
      intro d' hne
      have hold := hs.1 d'
      cases d <;> cases d' <;> simp_all [Direction.other]
    have hb : ∀ d', m_queued d' g' = 0 ∨ m_queued d' g' = 1 := by
      intro d'
      have hold := hs.2.1 d'
      cases d <;> cases d' <;> simp_all [Direction.other]
    have hcnt : ∀ new : List Entry, invoked d new = 0 → invoked d.other new = 0 →
        1 ≤ admitted d new →
        ∀ d', invoked d' new + (if m_handler d' g' = none then 0 else 1)
          ≤ (if m_handler d' s.g = none then 0 else 1) + admitted d' new := by
      intro new h1 h2 h3 d'
      have e1 : d' = d ∨ d' = d.other := by
        cases d <;> cases d' <;> simp [Direction.other]
      rcases e1 with rfl | rfl
      · rw [h1]
        split_ifs <;> omega
      · rw [h2, hoh]
        omega
    rcases he with he | he <;> rw [he]
    · apply sound_step s _ _ hs hinv hb
      · intro e hmem
        simp at hmem
        rw [hmem]
        exact hinv
      · apply hcnt <;> simp [invoked, admitted, Event.isHandlerOn, Event.isStartOn]
    · apply sound_step s _ _ hs hinv hb
      · intro e hmem
        simp at hmem
        rcases hmem with rfl | rfl <;> exact hinv
      · apply hcnt <;> simp [invoked, admitted, Event.isHandlerOn, Event.isStartOn]

theorem sound_exec (be : Backend) (fuel : Nat) (c : Call) (s s' : State) (hs : Sound s)
    (h : c.exec be fuel s = some s') : Sound s' := by
  cases c with
  | queue_tx buff size handler =>
    simp only [Call.exec, Option.some.injEq] at h
    rw [← h]
    exact sound_queue .XAXIDMA_DMA_TO_DEVICE be buff size handler s hs
  | queue_rx buff size handler =>
    simp only [Call.exec, Option.some.injEq] at h
    rw [← h]
    exact sound_queue .XAXIDMA_DEVICE_TO_DMA be buff size handler s hs
  | reset => exact sound_reset be fuel s s' hs h

theorem sound_runBody (be : Backend) (fuel : Nat) :
    ∀ (cs : List Call) (s s' : State), Sound s → runBody be fuel cs s = some s' → Sound s' := by
  intro cs
  induction cs with
  | nil =>
    intro s s' hs h
    simp only [runBody, Option.some.injEq] at h
    rw [← h]
    exact hs
  | cons c cs ih =>
    intro s s' hs h
    unfold runBody at h
    split at h
    · simp at h
    · rename_i s1 h1
      exact ih s1 s' (sound_exec be fuel c s s1 hs h1) h

theorem inv_clear (d : Direction) (g : Globals) (h : Inv g) : Inv (g.clear d) := by
  intro d' hne
  have hold := h d'
  cases d <;> cases d' <;> simp_all [Globals.clear, m_handler, m_queued]

theorem bounded_clear (d : Direction) (g : Globals)
    (h : ∀ d', m_queued d' g = 0 ∨ m_queued d' g = 1) :
    ∀ d', m_queued d' (g.clear d) = 0 ∨ m_queued d' (g.clear d) = 1 := by
  intro d'
  have hold := h d'
  cases d <;> cases d' <;> simp_all [Globals.clear, m_queued]

theorem sound_isr (d : Direction) (be : Backend) (uc : UserCode) (p : Params) (fuel : Nat)
    (s s' : State) (hs : Sound s) (h : axi_dma_isr d be uc p fuel s = some s') : Sound s' := by
  rcases axi_dma_isr_cases d be uc p fuel s s' h with
    rfl | ⟨_, hr⟩ | ⟨_, hnd, hh, hr⟩ | ⟨_, hh, rfl⟩
  · apply sound_step s _ _ hs hs.1 hs.2.1
    · intro e hmem
      simp at hmem
      rcases hmem with rfl | rfl <;> exact hs.1
    · intro d'
      simp [invoked, Event.isHandlerOn]
  · refine sound_reset be fuel _ s' ?_ hr
    apply sound_step s _ _ hs hs.1 hs.2.1
    · intro e hmem
      simp at hmem
      rcases hmem with rfl | rfl | rfl <;> exact hs.1
    · intro d'
      simp [invoked, Event.isHandlerOn]
  · refine sound_runBody be fuel _ _ s' ?_ hr
    apply sound_step s _ _ hs (inv_clear d _ hs.1) (bounded_clear d _ hs.2.1)
    · intro e hmem
      cases hv : p.VERBOSE <;> simp [completionEntries, hv] at hmem
      · rcases hmem with rfl | rfl | rfl
        · exact hs.1
        · exact hs.1
        · exact inv_clear d _ hs.1
      · rcases hmem with rfl | rfl | rfl | rfl
        · exact hs.1
        · exact hs.1
        · exact hs.1
        · exact inv_clear d _ hs.1
    · intro d'
      cases d <;> cases d' <;> cases hv : p.VERBOSE <;>
        simp_all [invoked, completionEntries, Event.isHandlerOn, Globals.clear, m_handler]
  · apply sound_step s _ _ hs (inv_clear d _ hs.1) (bounded_clear d _ hs.2.1)
    · intro e hmem
      cases hv : p.VERBOSE <;> simp [hv] at hmem
      · rcases hmem with rfl | rfl <;> exact hs.1
      · rcases hmem with rfl | rfl | rfl <;> exact hs.1
    · intro d'
      cases d <;> cases d' <;> cases hv : p.VERBOSE <;>
        simp_all [invoked, Event.isHandlerOn, Globals.clear, m_handler]

theorem sound_op (be : Backend) (uc : UserCode) (p : Params) (fuel : Nat) (o : Op)
    (s s' : State) (hs : Sound s) (h : o.step be uc p fuel s = some s') : Sound s' := by
  cases o with
  | submit d buff size handler =>
    simp only [Op.step, Option.some.injEq] at h
    rw [← h]
    exact sound_queue d be buff size handler s hs
  | interrupt d => exact sound_isr d be uc p fuel s s' hs h
  | reset => exact sound_reset be fuel s s' hs h

theorem sound_run (be : Backend) (uc : UserCode) (p : Params) (fuel : Nat) :
    ∀ (os : List Op) (s s' : State), Sound s → run be uc p fuel os s = some s' → Sound s' := by
  intro os
  induction os with
  | nil =>
    intro s s' hs h
    simp only [run, Option.some.injEq] at h
    rw [← h]
    exact hs
  | cons o os ih =>
    intro s s' hs h
    unfold run at h
    split at h
    · simp at h
    · rename_i s1 h1
      exact ih s1 s' (sound_op be uc p fuel o s s1 hs h1) h

theorem initialize_shape (be : Backend) (p : Params) (s : State) :
    ∃ new, ( axi_dma_initialize be p s).2 = ⟨Globals.idle, s.trace ++ new⟩ ∧
      ∀ e ∈ new, e.globals = Globals.idle ∧ e.call.isHandler = false ∧
        e.call.isReset = false := by
  unfold axi_dma_initialize
  simp only []
  split
  · exact ⟨_, by simp [log, Globals.idle]; rfl, by simp [Globals.idle, Event.isHandler,
      Event.isReset]⟩
  · split_ifs with h1 h2
    · exact ⟨_, by simp [log, Globals.idle]; rfl, by simp [Globals.idle, Event.isHandler,
        Event.isReset]⟩
    · exact absurd rfl h2
    · exact ⟨_, by simp [log, Globals.idle, axi_dma_initialize_interrupts,
        axi_dma_interrupts_disable, axi_dma_interrupts_enable]; rfl,
        by simp [Globals.idle, Event.isHandler, Event.isReset]⟩

theorem sound_initialized (be : Backend) (p : Params) (g0 : Globals) :
    Sound (initialized be p g0) := by
  obtain ⟨new, hnew, hall⟩ := initialize_shape be p ⟨g0, []⟩
  unfold initialized
  rw [hnew]
  refine ⟨inv_idle, ?_, ?_, ?_⟩
  · intro d
    cases d <;> simp [m_queued, Globals.idle]
  · intro e he
    simp only [List.nil_append] at he
    rw [(hall e he).1]
    exact inv_idle
  · intro d
    have h0 : invoked d new = 0 := by
      unfold invoked
      rw [List.countP_eq_zero]
      intro e he
      have h1 := (hall e he).2.1
      cases hc : e.call <;> simp_all [Event.isHandler, Event.isHandlerOn]
    have hn : m_handler d Globals.idle = none := by cases d <;> rfl
    simp [h0, hn]

/-! ## Invariants over operation sequences -/

/-- C8: in every state reached from the state left by `axi_dma_initialize`
through any finite sequence of submits, interrupts and resets (any arguments,
any backend answers, any handler bodies), a stored handler implies a non-zero
busy counter, for each direction; and the same holds of the globals recorded
at every call logged on the way, in particular at every invocation of a user
handler. -/
theorem handler_implies_busy (be : Backend) (uc : UserCode) (p : Params) (fuel : Nat)
    (g0 : Globals) (ops : List Op) (s' : State)
    (hrun : run be uc p fuel ops (initialized be p g0) = some s') :
    (∀ d, m_handler d s'.g ≠ none → m_queued d s'.g ≠ 0) ∧
    ∀ e ∈ s'.trace, e.call.isHandler = true →
      ∀ d, m_handler d e.globals ≠ none → m_queued d e.globals ≠ 0 := by
  have hs := sound_run be uc p fuel ops _ s' (sound_initialized be p g0) hrun
  exact ⟨hs.1, fun e he _ => hs.2.2.1 e he⟩

/-- Witness for C8: the sample session returns, and its final state satisfies
the invariant. -/
theorem handler_implies_busy_witness :
    ∃ s', run sampleBackend quietCode testParams 3 sampleOps
        (initialized sampleBackend testParams boot.g) = some s' ∧
      (∀ d, m_handler d s'.g ≠ none → m_queued d s'.g ≠ 0) ∧
      invoked .XAXIDMA_DMA_TO_DEVICE s'.trace = 1 :=
  ⟨_, rfl,
    (handler_implies_busy sampleBackend quietCode testParams 3 boot.g sampleOps _ rfl).1,
    by decide⟩

theorem runBody_quiet (be : Backend) (fuel : Nat) (uc : UserCode) (hquiet : ∀ h, uc h = [])
    (h : Nat) (s : State) : runBody be fuel (uc h) s = some s := by
  rw [hquiet h]
  rfl

theorem isr_quiet_potential (d : Direction) (be : Backend) (uc : UserCode) (p : Params)
    (fuel : Nat) (hquiet : ∀ h, uc h = []) (s s' : State)
    (h : axi_dma_isr d be uc p fuel s = some s') :
    invoked d s'.trace + (if m_handler d s'.g = none then 0 else 1)
      ≤ invoked d s.trace + (if m_handler d s.g = none then 0 else 1) := by
  have hn : m_handler d Globals.idle = none := by cases d <;> rfl
  have hc : m_handler d (s.g.clear d) = none := by cases d <;> rfl
  rcases axi_dma_isr_cases d be uc p fuel s s' h with
    rfl | ⟨_, hr⟩ | ⟨_, hnd, hh, hr⟩ | ⟨_, hh, rfl⟩
  · simp [invoked, Event.isHandlerOn]
  · obtain ⟨k, rfl⟩ := axi_dma_reset_some be fuel _ s' hr
    simp [hn, invoked, polls, disableEnable, Event.isHandlerOn, List.countP_replicate]
  · rw [runBody_quiet be fuel uc hquiet] at hr
    simp only [Option.some.injEq] at hr
    rw [← hr]
    cases hv : p.VERBOSE <;>
      simp [hc, hh, invoked, completionEntries, hv, Event.isHandlerOn]
  · cases hv : p.VERBOSE <;> simp [hc, hh, invoked, hv, Event.isHandlerOn]

/-- C9: after any finite sequence of submits, interrupts and resets from the
state left by `axi_dma_initialize` (with any handler bodies, in particular
bodies that make no driver call), the interrupt handler of `d` has invoked
user handlers no more often than submits on `d` passed the busy check; and
with handler bodies that make no driver call, two consecutive runs of the
interrupt handler of `d` from any state invoke a user handler at most once. -/
theorem completions_at_most_admissions (be : Backend) (uc : UserCode) (p : Params)
    (fuel : Nat) (g0 : Globals) (ops : List Op) (s' : State) (d : Direction)
    (hrun : run be uc p fuel ops (initialized be p g0) = some s') :
    invoked d s'.trace ≤ admitted d s'.trace ∧
    ((∀ h, uc h = []) → ∀ s s1 s2 : State,
      axi_dma_isr d be uc p fuel s = some s1 → axi_dma_isr d be uc p fuel s1 = some s2 →
      invoked d s2.trace ≤ invoked d s.trace + 1) := by
  have hs := sound_run be uc p fuel ops _ s' (sound_initialized be p g0) hrun
  refine ⟨?_, ?_⟩
  · have h4 := hs.2.2.2 d
    omega
  · intro hquiet s s1 s2 h1 h2
    have e1 := isr_quiet_potential d be uc p fuel hquiet s s1 h1
    have e2 := isr_quiet_potential d be uc p fuel hquiet s1 s2 h2
    have e3 : (if m_handler d s.g = none then 0 else 1) ≤ 1 := by split_ifs <;> omega
    omega

/-- Witness for C9: in the sample session one transmit handler was invoked for
one admitted transmit submit, and two further transmit completion interrupts
on a busy channel invoke its handler once. -/
theorem completions_at_most_admissions_witness :
    (∃ s', run sampleBackend quietCode testParams 3 sampleOps
        (initialized sampleBackend testParams boot.g) = some s' ∧
      invoked .XAXIDMA_DMA_TO_DEVICE s'.trace ≤ admitted .XAXIDMA_DMA_TO_DEVICE s'.trace) ∧
    (∃ s1 s2, axi_dma_isr .XAXIDMA_DMA_TO_DEVICE sampleBackend quietCode testParams 3 busyState
        = some s1 ∧
      axi_dma_isr .XAXIDMA_DMA_TO_DEVICE sampleBackend quietCode testParams 3 s1 = some s2 ∧
      invoked .XAXIDMA_DMA_TO_DEVICE s2.trace
        ≤ invoked .XAXIDMA_DMA_TO_DEVICE busyState.trace + 1) :=
  ⟨⟨_, rfl,
      (completions_at_most_admissions sampleBackend quietCode testParams 3 boot.g sampleOps _
        .XAXIDMA_DMA_TO_DEVICE rfl).1⟩,
    ⟨_, _, rfl, rfl,
      (completions_at_most_admissions sampleBackend quietCode testParams 3 boot.g sampleOps _
        .XAXIDMA_DMA_TO_DEVICE rfl).2 (fun _ => rfl) busyState _ _ rfl rfl⟩⟩

/-! ## Independence of the two directions -/

/-- C10: a submit on `d`, whatever its arguments and outcome, leaves the busy
counter and the stored handler of the other direction unchanged; and so does
a run of the interrupt handler of `d` on a pending word with the error bit
clear, which returns when handler bodies make no driver call. -/
theorem other_direction_untouched (d : Direction) (be : Backend) (uc : UserCode)
    (p : Params) (fuel : Nat) (buff size : Nat) (handler : AXI_DMA_HANDLER) (s : State) :
    (m_queued d.other (axi_dma_queue d be buff size handler s).2.g = m_queued d.other s.g ∧
      m_handler d.other (axi_dma_queue d be buff size handler s).2.g
        = m_handler d.other s.g) ∧
    ((∀ h, uc h = []) →
      be.XAxiDma_IntrGetIrq s.trace d &&& XAXIDMA_IRQ_ERROR_MASK = 0 →
      ∃ s', axi_dma_isr d be uc p fuel s = some s' ∧
        m_queued d.other s'.g = m_queued d.other s.g ∧
        m_handler d.other s'.g = m_handler d.other s.g) := by
  have hco : m_queued d.other (s.g.clear d) = m_queued d.other s.g ∧
      m_handler d.other (s.g.clear d) = m_handler d.other s.g := by
    cases d <;> simp [Globals.clear, m_queued, m_handler, Direction.other]
  refine ⟨?_, ?_⟩
  · rcases axi_dma_queue_cases d be buff size handler s with
      ⟨_, he⟩ | ⟨_, g', _, _, hoq, hoh, he | he⟩
    · rw [he]
      exact ⟨rfl, rfl⟩
    · rw [he]
      exact ⟨hoq, hoh⟩
    · rw [he]
      exact ⟨hoq, hoh⟩
  · intro hquiet herr
    have hret := isr_returns_of_quiet d be uc p fuel s hquiet herr
    obtain ⟨s', hs'⟩ := hret
    refine ⟨s', hs', ?_⟩
    rcases axi_dma_isr_cases d be uc p fuel s s' hs' with
      rfl | ⟨hne, _⟩ | ⟨_, hnd, hh, hr⟩ | ⟨_, hh, rfl⟩
    · exact ⟨rfl, rfl⟩
    · exact absurd herr hne
    · rw [runBody_quiet be fuel uc hquiet] at hr
      simp only [Option.some.injEq] at hr
      rw [← hr]
      exact hco
    · exact hco

/-- Witness for C10: `submit(Transmit, buf, 64, cb)` on the boot state leaves
the receive channel as it was, and so does the transmit completion interrupt
that follows. -/
theorem other_direction_untouched_witness :
    (m_queued Direction.XAXIDMA_DMA_TO_DEVICE.other
        (axi_dma_queue .XAXIDMA_DMA_TO_DEVICE sampleBackend 4096 64 (some 5) boot).2.g
        = m_queued Direction.XAXIDMA_DMA_TO_DEVICE.other boot.g ∧
      m_handler Direction.XAXIDMA_DMA_TO_DEVICE.other
        (axi_dma_queue .XAXIDMA_DMA_TO_DEVICE sampleBackend 4096 64 (some 5) boot).2.g
        = m_handler Direction.XAXIDMA_DMA_TO_DEVICE.other boot.g) ∧
    ∃ s', axi_dma_isr .XAXIDMA_DMA_TO_DEVICE sampleBackend quietCode testParams 3
        (axi_dma_queue .XAXIDMA_DMA_TO_DEVICE sampleBackend 4096 64 (some 5) boot).2 = some s' ∧
      m_queued Direction.XAXIDMA_DMA_TO_DEVICE.other s'.g
        = m_queued Direction.XAXIDMA_DMA_TO_DEVICE.other
          (axi_dma_queue .XAXIDMA_DMA_TO_DEVICE sampleBackend 4096 64 (some 5) boot).2.g ∧
      m_handler Direction.XAXIDMA_DMA_TO_DEVICE.other s'.g
        = m_handler Direction.XAXIDMA_DMA_TO_DEVICE.other
          (axi_dma_queue .XAXIDMA_DMA_TO_DEVICE sampleBackend 4096 64 (some 5) boot).2.g :=
  ⟨(other_direction_untouched .XAXIDMA_DMA_TO_DEVICE sampleBackend quietCode testParams 3
      4096 64 (some 5) boot).1,
    (other_direction_untouched .XAXIDMA_DMA_TO_DEVICE sampleBackend quietCode testParams 3
      4096 64 (some 5)
      (axi_dma_queue .XAXIDMA_DMA_TO_DEVICE sampleBackend 4096 64 (some 5) boot).2).2
      (fun _ => rfl) (by decide)⟩

/-! ## Acknowledge first -/

theorem quiet_refl (t : List Entry) : ExtendsQuietly t t :=
  ⟨[], by simp, by simp⟩

theorem quiet_trans (a b c : List Entry) (h1 : ExtendsQuietly a b) (h2 : ExtendsQuietly b c) :
    ExtendsQuietly a c := by
  obtain ⟨r1, rfl, q1⟩ := h1
  obtain ⟨r2, rfl, q2⟩ := h2
  refine ⟨r1 ++ r2, by simp, ?_⟩
  intro e he
  rcases List.mem_append.1 he with he | he
  · exact q1 e he
  · exact q2 e he

theorem quiet_reset (be : Backend) (fuel : Nat) (s s' : State)
    (h : axi_dma_reset be fuel s = some s') : ExtendsQuietly s.trace s'.trace := by
  obtain ⟨k, rfl⟩ := axi_dma_reset_some be fuel s s' h
  refine ⟨_, rfl, ?_⟩
  intro e he
  simp [polls, disableEnable] at he
  rcases he with rfl | ⟨_, rfl⟩ | rfl | rfl | rfl | rfl <;> rfl

theorem quiet_queue (d : Direction) (be : Backend) (buff size : Nat)
    (handler : AXI_DMA_HANDLER) (s : State) :
    ExtendsQuietly s.trace (axi_dma_queue d be buff size handler s).2.trace := by
  rcases axi_dma_queue_cases d be buff size handler s with
    ⟨_, he⟩ | ⟨_, g', _, _, _, _, he | he⟩ <;> rw [he] <;>
    exact ⟨_, rfl, by simp [Event.isIrqIo]⟩

theorem quiet_exec (be : Backend) (fuel : Nat) (c : Call) (s s' : State)
    (h : c.exec be fuel s = some s') : ExtendsQuietly s.trace s'.trace := by
  cases c with
  | queue_tx buff size handler =>
    simp only [Call.exec, Option.some.injEq] at h
    rw [← h]
    exact quiet_queue .XAXIDMA_DMA_TO_DEVICE be buff size handler s
  | queue_rx buff size handler =>
    simp only [Call.exec, Option.some.injEq] at h
    rw [← h]
    exact quiet_queue .XAXIDMA_DEVICE_TO_DMA be buff size handler s
  | reset => exact quiet_reset be fuel s s' h

theorem quiet_runBody (be : Backend) (fuel : Nat) :
    ∀ (cs : List Call) (s s' : State), runBody be fuel cs s = some s' →
      ExtendsQuietly s.trace s'.trace := by
  intro cs
  induction cs with
  | nil =>
    intro s s' h
    simp only [runBody, Option.some.injEq] at h
    rw [← h]
    exact quiet_refl _
  | cons c cs ih =>
    intro s s' h
    unfold runBody at h
    split at h
    · simp at h
    · rename_i s1 h1
      exact quiet_trans _ _ _ (quiet_exec be fuel c s s1 h1) (ih s1 s' h)

/-! ## Observed runs -/

theorem resetWait_returned (be : Backend) :
    ∀ (fuel : Nat) (s : State), resetWait be fuel s = returned (resetWait_log be fuel s) := by
  intro fuel
  induction fuel with
  | zero => intro s; simp [resetWait, resetWait_log, returned]
  | succ f ih =>
    intro s
    unfold resetWait resetWait_log
    split_ifs with hd
    · simp [returned]
    · exact ih _

theorem reset_returned (be : Backend) (fuel : Nat) (s : State) :
    axi_dma_reset be fuel s = returned (axi_dma_reset_log be fuel s) := by
  unfold axi_dma_reset axi_dma_reset_log
  simp only [resetWait_returned]
  rcases hw : resetWait_log be fuel
    (log { g := { m_handler_rx := none, m_handler_tx := none, m_queued_rx := 0,
                  m_queued_tx := 0 },
           trace := s.trace } Event.XAxiDma_Reset) with ⟨s1, b⟩
  cases b <;> simp [returned]

theorem exec_returned (be : Backend) (fuel : Nat) (c : Call) (s : State) :
    c.exec be fuel s = returned (c.exec_log be fuel s) := by
  cases c with
  | queue_tx buff size handler => simp [Call.exec, Call.exec_log, returned]
  | queue_rx buff size handler => simp [Call.exec, Call.exec_log, returned]
  | reset => simp [Call.exec, Call.exec_log, reset_returned]

theorem runBody_returned (be : Backend) (fuel : Nat) :
    ∀ (cs : List Call) (s : State),
      runBody be fuel cs s = returned (runBody_log be fuel cs s) := by
  intro cs
  induction cs with
  | nil => intro s; simp [runBody, runBody_log, returned]
  | cons c cs ih =>
    intro s
    unfold runBody runBody_log
    rw [exec_returned]
    rcases hc : c.exec_log be fuel s with ⟨s1, b⟩
    cases b
    · simp [returned]
    · simpa [returned] using ih s1

theorem resetWait_log_polls (be : Backend) :
    ∀ (fuel : Nat) (s : State),
      ∃ k, (resetWait_log be fuel s).1 = ⟨s.g, s.trace ++ polls s.g k⟩ := by
  intro fuel
  induction fuel with
  | zero => intro s; exact ⟨0, by simp [resetWait_log, polls]⟩
  | succ f ih =>
    intro s
    unfold resetWait_log
    split_ifs with hd
    · exact ⟨1, by simp [log, polls]⟩
    · obtain ⟨k, hk⟩ := ih (log s .XAxiDma_ResetIsDone)
      refine ⟨k + 1, ?_⟩
      rw [hk]
      simp [log, polls_succ]

theorem quiet_polls (g : Globals) (k : Nat) : ∀ e ∈ polls g k, e.call.isIrqIo = false := by
  intro e he
  simp [polls] at he
  rw [he.2]
  rfl

theorem quiet_reset_log (be : Backend) (fuel : Nat) (s : State) :
    ExtendsQuietly s.trace (axi_dma_reset_log be fuel s).1.trace := by
  unfold axi_dma_reset_log
  simp only []
  obtain ⟨k, hk⟩ := resetWait_log_polls be fuel
    (log { g := { m_handler_rx := none, m_handler_tx := none, m_queued_rx := 0,
                  m_queued_tx := 0 },
           trace := s.trace } Event.XAxiDma_Reset)
  rcases hw : resetWait_log be fuel
    (log { g := { m_handler_rx := none, m_handler_tx := none, m_queued_rx := 0,
                  m_queued_tx := 0 },
           trace := s.trace } Event.XAxiDma_Reset) with ⟨s1, b⟩
  rw [hw] at hk
  simp only at hk
  subst hk
  cases b
  · refine ⟨⟨Globals.idle, .XAxiDma_Reset⟩ :: polls Globals.idle k, by
      simp [log, Globals.idle], ?_⟩
    intro e he
    rcases List.mem_cons.1 he with rfl | he
    · rfl
    · exact quiet_polls _ k e he
  · refine ⟨⟨Globals.idle, .XAxiDma_Reset⟩ :: polls Globals.idle k
      ++ disableEnable Globals.idle, by
      simp [log, axi_dma_interrupts_disable, axi_dma_interrupts_enable, disableEnable,
        Globals.idle], ?_⟩
    intro e he
    simp only [List.cons_append, List.mem_cons, List.mem_append] at he
    rcases he with rfl | he | he
    · rfl
    · exact quiet_polls _ k e he
    · simp [disableEnable] at he
      rcases he with rfl | rfl | rfl | rfl <;> rfl

theorem quiet_exec_log (be : Backend) (fuel : Nat) (c : Call) (s : State) :
    ExtendsQuietly s.trace (c.exec_log be fuel s).1.trace := by
  cases c with
  | queue_tx buff size handler =>
    exact quiet_queue .XAXIDMA_DMA_TO_DEVICE be buff size handler s
  | queue_rx buff size handler =>
    exact quiet_queue .XAXIDMA_DEVICE_TO_DMA be buff size handler s
  | reset => exact quiet_reset_log be fuel s

theorem quiet_runBody_log (be : Backend) (fuel : Nat) :
    ∀ (cs : List Call) (s : State),
      ExtendsQuietly s.trace (runBody_log be fuel cs s).1.trace := by
  intro cs
  induction cs with
  | nil => intro s; exact quiet_refl _
  | cons c cs ih =>
    intro s
    have hq := quiet_exec_log be fuel c s
    unfold runBody_log
    rcases hc : c.exec_log be fuel s with ⟨s1, b⟩
    rw [hc] at hq
    cases b
    · exact hq
    · exact quiet_trans _ _ _ hq (ih s1)

theorem isr_log_nothing_aux (d : Direction) (be : Backend) (uc : UserCode) (p : Params)
    (fuel : Nat) (s : State)
    (herr : be.XAxiDma_IntrGetIrq s.trace d &&& XAXIDMA_IRQ_ERROR_MASK = 0)
    (hd : be.XAxiDma_IntrGetIrq s.trace d
      &&& (XAXIDMA_IRQ_DELAY_MASK ||| XAXIDMA_IRQ_IOC_MASK) = 0) :
    axi_dma_isr_log d be uc p fuel s
      = (⟨s.g, s.trace ++
          [⟨s.g, .XAxiDma_IntrGetIrq d⟩,
           ⟨s.g, .XAxiDma_IntrAckIrq (be.XAxiDma_IntrGetIrq s.trace d) d⟩]⟩, true) := by
  cases d <;>
    simp [axi_dma_isr_log, axi_dma_isr_tx_log, axi_dma_isr_rx_log, log] at herr hd ⊢ <;>
    simp [herr, hd]

theorem isr_log_error_aux (d : Direction) (be : Backend) (uc : UserCode) (p : Params)
    (fuel : Nat) (s : State)
    (herr : be.XAxiDma_IntrGetIrq s.trace d &&& XAXIDMA_IRQ_ERROR_MASK ≠ 0) :
    axi_dma_isr_log d be uc p fuel s
      = axi_dma_reset_log be fuel ⟨s.g, s.trace ++ [⟨s.g, .XAxiDma_IntrGetIrq d⟩,
          ⟨s.g, .XAxiDma_IntrAckIrq (be.XAxiDma_IntrGetIrq s.trace d) d⟩,
          ⟨s.g, .xil_printf (irqErrorMsg d)⟩]⟩ := by
  have hall := all_of_error _ herr
  cases d <;>
    simp [axi_dma_isr_log, axi_dma_isr_tx_log, axi_dma_isr_rx_log, log, irqErrorMsg]
      at hall herr ⊢ <;>
    simp [hall, herr]

theorem isr_log_completion_aux (d : Direction) (be : Backend) (uc : UserCode) (p : Params)
    (fuel : Nat) (s : State) (h : Nat)
    (herr : be.XAxiDma_IntrGetIrq s.trace d &&& XAXIDMA_IRQ_ERROR_MASK = 0)
    (hd : be.XAxiDma_IntrGetIrq s.trace d
      &&& (XAXIDMA_IRQ_DELAY_MASK ||| XAXIDMA_IRQ_IOC_MASK) ≠ 0)
    (hh : m_handler d s.g = some h) :
    axi_dma_isr_log d be uc p fuel s
      = runBody_log be fuel (uc h) ⟨s.g.clear d, s.trace ++ completionEntries d be p s h⟩ := by
  have hall := all_of_done _ hd
  cases d <;> cases hv : p.VERBOSE <;>
    simp [axi_dma_isr_log, axi_dma_isr_tx_log, axi_dma_isr_rx_log, m_handler, log, hv,
      completionEntries, Globals.clear, completedMsg] at hh hall hd herr ⊢ <;>
    simp [hall, hd, herr, hh]

theorem isr_log_completion_none_aux (d : Direction) (be : Backend) (uc : UserCode)
    (p : Params) (fuel : Nat) (s : State)
    (herr : be.XAxiDma_IntrGetIrq s.trace d &&& XAXIDMA_IRQ_ERROR_MASK = 0)
    (hd : be.XAxiDma_IntrGetIrq s.trace d
      &&& (XAXIDMA_IRQ_DELAY_MASK ||| XAXIDMA_IRQ_IOC_MASK) ≠ 0)
    (hh : m_handler d s.g = none) :
    axi_dma_isr_log d be uc p fuel s
      = (⟨s.g.clear d, s.trace ++ ([⟨s.g, .XAxiDma_IntrGetIrq d⟩,
          ⟨s.g, .XAxiDma_IntrAckIrq (be.XAxiDma_IntrGetIrq s.trace d) d⟩]
          ++ (if p.VERBOSE then [⟨s.g, .xil_printf (completedMsg d)⟩] else []))⟩, true) := by
  have hall := all_of_done _ hd
  cases d <;> cases hv : p.VERBOSE <;>
    simp [axi_dma_isr_log, axi_dma_isr_tx_log, axi_dma_isr_rx_log, m_handler, log, hv,
      Globals.clear, completedMsg] at hh hall hd herr ⊢ <;>
    simp [hall, hd, herr, hh]

theorem isr_returned (d : Direction) (be : Backend) (uc : UserCode) (p : Params)
    (fuel : Nat) (s : State) :
    axi_dma_isr d be uc p fuel s = returned (axi_dma_isr_log d be uc p fuel s) := by
  by_cases h2 : be.XAxiDma_IntrGetIrq s.trace d &&& XAXIDMA_IRQ_ERROR_MASK = 0
  · by_cases h3 : be.XAxiDma_IntrGetIrq s.trace d
        &&& (XAXIDMA_IRQ_DELAY_MASK ||| XAXIDMA_IRQ_IOC_MASK) = 0
    · rw [isr_nothing_aux d be uc p fuel s h2 h3, isr_log_nothing_aux d be uc p fuel s h2 h3]
      rfl
    · cases hm : m_handler d s.g with
      | none =>
        rw [isr_completion_none_aux d be uc p fuel s h2 h3 hm,
          isr_log_completion_none_aux d be uc p fuel s h2 h3 hm]
        rfl
      | some hnd =>
        rw [isr_completion_aux d be uc p fuel s hnd h2 h3 hm,
          isr_log_completion_aux d be uc p fuel s hnd h2 h3 hm]
        exact runBody_returned be fuel _ _
  · rw [isr_error_aux d be uc p fuel s h2, isr_log_error_aux d be uc p fuel s h2]
    exact reset_returned be fuel _

theorem isr_log_acknowledges_first (d : Direction) (be : Backend) (uc : UserCode)
    (p : Params) (fuel : Nat) (s : State) :
    ∃ rest, (axi_dma_isr_log d be uc p fuel s).1.trace = s.trace ++
        (⟨s.g, .XAxiDma_IntrGetIrq d⟩ ::
          ⟨s.g, .XAxiDma_IntrAckIrq (be.XAxiDma_IntrGetIrq s.trace d) d⟩ :: rest) ∧
      ∀ e ∈ rest, e.call.isIrqIo = false := by
  by_cases h2 : be.XAxiDma_IntrGetIrq s.trace d &&& XAXIDMA_IRQ_ERROR_MASK = 0
  · by_cases h3 : be.XAxiDma_IntrGetIrq s.trace d
        &&& (XAXIDMA_IRQ_DELAY_MASK ||| XAXIDMA_IRQ_IOC_MASK) = 0
    · rw [isr_log_nothing_aux d be uc p fuel s h2 h3]
      exact ⟨[], rfl, by simp⟩
    · cases hm : m_handler d s.g with
      | none =>
        rw [isr_log_completion_none_aux d be uc p fuel s h2 h3 hm]
        refine ⟨if p.VERBOSE then [⟨s.g, .xil_printf (completedMsg d)⟩] else [],
          by simp, ?_⟩
        intro e he
        cases hv : p.VERBOSE <;> simp [hv] at he
        rw [he]; rfl
      | some hnd =>
        rw [isr_log_completion_aux d be uc p fuel s hnd h2 h3 hm]
        obtain ⟨rest, hrest, hq⟩ := quiet_runBody_log be fuel (uc hnd)
          ⟨s.g.clear d, s.trace ++ completionEntries d be p s hnd⟩
        refine ⟨(if p.VERBOSE then [⟨s.g, .xil_printf (completedMsg d)⟩] else [])
          ++ [⟨s.g.clear d, .handler d hnd⟩] ++ rest, by
          rw [hrest]; simp [completionEntries], ?_⟩
        intro e he
        rcases List.mem_append.1 he with he | he
        · cases hv : p.VERBOSE <;> simp [hv] at he
          · rw [he]; rfl
          · rcases he with rfl | rfl <;> rfl
        · exact hq e he
  · rw [isr_log_error_aux d be uc p fuel s h2]
    obtain ⟨rest, hrest, hq⟩ := quiet_reset_log be fuel
      ⟨s.g, s.trace ++ [⟨s.g, .XAxiDma_IntrGetIrq d⟩,
        ⟨s.g, .XAxiDma_IntrAckIrq (be.XAxiDma_IntrGetIrq s.trace d) d⟩,
        ⟨s.g, .xil_printf (irqErrorMsg d)⟩]⟩
    refine ⟨⟨s.g, .xil_printf (irqErrorMsg d)⟩ :: rest, by rw [hrest]; simp, ?_⟩
    intro e he
    rcases List.mem_cons.1 he with rfl | he
    · rfl
    · exact hq e he

/-- C7: every run of the interrupt handler of `d`, from any state, on any
pending word, for any fuel, whether it returns or is still spinning in the
reset loop when the fuel runs out, has logged as its first two calls the read
of the pending word for `d` and the acknowledge of exactly that word for `d`;
everything else it logs (diagnostics, reset, polls, disable/enable, the user
handler and what its body does) comes after, and contains no further read or
acknowledge.  The run that `axi_dma_isr` reports is the observed one: it
answers the observed state when the run returned and `none` otherwise, so
every state it returns has the log just described. -/
theorem isr_acknowledges_first (d : Direction) (be : Backend) (uc : UserCode) (p : Params)
    (fuel : Nat) (s : State) :
    (∃ rest, (axi_dma_isr_log d be uc p fuel s).1.trace = s.trace ++
        (⟨s.g, .XAxiDma_IntrGetIrq d⟩ ::
          ⟨s.g, .XAxiDma_IntrAckIrq (be.XAxiDma_IntrGetIrq s.trace d) d⟩ :: rest) ∧
      ∀ e ∈ rest, e.call.isIrqIo = false) ∧
    axi_dma_isr d be uc p fuel s = returned (axi_dma_isr_log d be uc p fuel s) ∧
    ∀ s', axi_dma_isr d be uc p fuel s = some s' →
      ∃ rest, s'.trace = s.trace ++
          (⟨s.g, .XAxiDma_IntrGetIrq d⟩ ::
            ⟨s.g, .XAxiDma_IntrAckIrq (be.XAxiDma_IntrGetIrq s.trace d) d⟩ :: rest) ∧
        ∀ e ∈ rest, e.call.isIrqIo = false := by
  have hlog := isr_log_acknowledges_first d be uc p fuel s
  have hret := isr_returned d be uc p fuel s
  refine ⟨hlog, hret, ?_⟩
  intro s' hs'
  rw [hret] at hs'
  unfold returned at hs'
  split_ifs at hs' with hb
  simp only [Option.some.injEq] at hs'
  rw [← hs']
  exact hlog

/-- Witness for C7: an error interrupt on the transmit line of a backend whose
reset never completes does not return, and the log of the unfinished run
starts with the read and the acknowledge of the error word. -/
theorem isr_acknowledges_first_witness :
    axi_dma_isr .XAXIDMA_DMA_TO_DEVICE hangBackend quietCode testParams 3 busyState = none ∧
    ∃ rest, (axi_dma_isr_log .XAXIDMA_DMA_TO_DEVICE hangBackend quietCode testParams 3
          busyState).1.trace
        = busyState.trace ++
          (⟨busyState.g, .XAxiDma_IntrGetIrq .XAXIDMA_DMA_TO_DEVICE⟩ ::
            ⟨busyState.g, .XAxiDma_IntrAckIrq 0x5000 .XAXIDMA_DMA_TO_DEVICE⟩ :: rest) ∧
      ∀ e ∈ rest, e.call.isIrqIo = false :=
  ⟨by decide,
    (isr_acknowledges_first .XAXIDMA_DMA_TO_DEVICE hangBackend quietCode testParams 3
      busyState).1⟩

/-! ## Recovery -/

theorem reset_entries_aux (be : Backend) (fuel : Nat) (s : State) (n : Nat) (hn : n < fuel)
    (hfalse : ∀ k, k < n → be.XAxiDma_ResetIsDone
      (s.trace ++ ⟨Globals.idle, .XAxiDma_Reset⟩ :: polls Globals.idle k) = false)
    (htrue : be.XAxiDma_ResetIsDone
      (s.trace ++ ⟨Globals.idle, .XAxiDma_Reset⟩ :: polls Globals.idle n) = true) :
    axi_dma_reset be fuel s = some ⟨Globals.idle, s.trace ++ resetEntries n⟩ :=
  axi_dma_reset_polls be fuel s n hn hfalse htrue

theorem reset_entries_no_handler (n : Nat) :
    (resetEntries n).countP (fun e => e.call.isHandler) = 0 := by
  simp [resetEntries, polls, disableEnable, Event.isHandler, List.countP_replicate]

theorem reset_entries_no_intc (n : Nat) : ∀ e ∈ resetEntries n, e.call.isIntc = false := by
  intro e he
  simp [resetEntries, polls, disableEnable] at he
  rcases he with rfl | ⟨_, rfl⟩ | rfl | rfl | rfl | rfl <;> rfl

/-- C11: two runs of `axi_dma_reset` in a row, each on a backend whose reset
completes within the fuel (at poll `n1 + 1`, then at poll `n2 + 1`), both
return; the globals after the second run equal the globals after the first,
all four cleared; the log of the second run is the log of the first followed
by one more reset sequence (hardware reset, polls, disable all, enable all);
neither run invokes a user handler. -/
theorem reset_twice_same_state (be : Backend) (fuel : Nat) (s : State) (n1 n2 : Nat)
    (h1 : n1 < fuel) (h2 : n2 < fuel)
    (hfalse1 : ∀ k, k < n1 → be.XAxiDma_ResetIsDone
      (s.trace ++ ⟨Globals.idle, .XAxiDma_Reset⟩ :: polls Globals.idle k) = false)
    (htrue1 : be.XAxiDma_ResetIsDone
      (s.trace ++ ⟨Globals.idle, .XAxiDma_Reset⟩ :: polls Globals.idle n1) = true)
    (hfalse2 : ∀ k, k < n2 → be.XAxiDma_ResetIsDone
      (s.trace ++ resetEntries n1 ++ ⟨Globals.idle, .XAxiDma_Reset⟩ :: polls Globals.idle k)
        = false)
    (htrue2 : be.XAxiDma_ResetIsDone
      (s.trace ++ resetEntries n1 ++ ⟨Globals.idle, .XAxiDma_Reset⟩ :: polls Globals.idle n2)
        = true) :
    ∃ s1 s2, axi_dma_reset be fuel s = some s1 ∧ axi_dma_reset be fuel s1 = some s2 ∧
      s2.g = s1.g ∧
      (∀ d, m_queued d s1.g = 0 ∧ m_handler d s1.g = none) ∧
      s1.trace = s.trace ++ resetEntries n1 ∧
      s2.trace = s1.trace ++ resetEntries n2 ∧
      (resetEntries n1 ++ resetEntries n2).countP (fun e => e.call.isHandler) = 0 := by
  refine ⟨⟨Globals.idle, s.trace ++ resetEntries n1⟩,
    ⟨Globals.idle, s.trace ++ resetEntries n1 ++ resetEntries n2⟩,
    reset_entries_aux be fuel s n1 h1 hfalse1 htrue1,
    reset_entries_aux be fuel ⟨Globals.idle, s.trace ++ resetEntries n1⟩ n2 h2 hfalse2 htrue2,
    rfl, ?_, rfl, rfl, ?_⟩
  · intro d
    cases d <;> simp [m_queued, m_handler, Globals.idle]
  · simp [List.countP_append, reset_entries_no_handler]

/-- Witness for C11: two resets of a state with both channels busy, on a
backend whose first reset completes at the third poll and whose second
completes at the first. -/
theorem reset_twice_same_state_witness :
    ∃ s1 s2, axi_dma_reset (testBackend XST_SUCCESS 0 3) 5 busyState = some s1 ∧
      axi_dma_reset (testBackend XST_SUCCESS 0 3) 5 s1 = some s2 ∧
      s2.g = s1.g ∧
      (∀ d, m_queued d s1.g = 0 ∧ m_handler d s1.g = none) ∧
      s1.trace = busyState.trace ++ resetEntries 2 ∧
      s2.trace = s1.trace ++ resetEntries 0 ∧
      (resetEntries 2 ++ resetEntries 0).countP (fun e => e.call.isHandler) = 0 :=
  reset_twice_same_state (testBackend XST_SUCCESS 0 3) 5 busyState 2 0 (by decide) (by decide)
    (by
      intro k hk
      have hk2 : k = 0 ∨ k = 1 := by omega
      rcases hk2 with rfl | rfl <;> decide)
    (by decide)
    (by intro k hk; omega)
    (by decide)

/-- C12: on a backend whose reset-complete query answers false `n` times and
then true (with `n` below the fuel), `axi_dma_reset` returns from any state
with all four globals cleared, and the log grows by exactly: one hardware
reset, `n + 1` polls, interrupt-disable for transmit then receive,
interrupt-enable for transmit then receive.  The globals recorded at the
hardware reset are already cleared, and no stored handler is invoked. -/
theorem reset_sequence (be : Backend) (fuel : Nat) (s : State) (n : Nat) (hn : n < fuel)
    (hfalse : ∀ k, k < n → be.XAxiDma_ResetIsDone
      (s.trace ++ ⟨Globals.idle, .XAxiDma_Reset⟩ :: polls Globals.idle k) = false)
    (htrue : be.XAxiDma_ResetIsDone
      (s.trace ++ ⟨Globals.idle, .XAxiDma_Reset⟩ :: polls Globals.idle n) = true) :
    ∃ s', axi_dma_reset be fuel s = some s' ∧
      (∀ d, m_queued d s'.g = 0 ∧ m_handler d s'.g = none) ∧
      s'.trace = s.trace ++
        ([⟨Globals.idle, .XAxiDma_Reset⟩]
          ++ List.replicate (n + 1) ⟨Globals.idle, .XAxiDma_ResetIsDone⟩
          ++ [⟨Globals.idle, .XAxiDma_IntrDisable XAXIDMA_IRQ_ALL_MASK .XAXIDMA_DMA_TO_DEVICE⟩,
              ⟨Globals.idle, .XAxiDma_IntrDisable XAXIDMA_IRQ_ALL_MASK .XAXIDMA_DEVICE_TO_DMA⟩,
              ⟨Globals.idle, .XAxiDma_IntrEnable XAXIDMA_IRQ_ALL_MASK .XAXIDMA_DMA_TO_DEVICE⟩,
              ⟨Globals.idle, .XAxiDma_IntrEnable XAXIDMA_IRQ_ALL_MASK .XAXIDMA_DEVICE_TO_DMA⟩]) ∧
      (∀ d, m_queued d Globals.idle = 0 ∧ m_handler d Globals.idle = none) ∧
      (resetEntries n).countP (fun e => e.call.isHandler) = 0 := by
  have hidle : ∀ d, m_queued d Globals.idle = 0 ∧ m_handler d Globals.idle = none := by
    intro d
    cases d <;> simp [m_queued, m_handler, Globals.idle]
  refine ⟨⟨Globals.idle, s.trace ++ resetEntries n⟩,
    reset_entries_aux be fuel s n hn hfalse htrue, hidle, ?_, hidle,
    reset_entries_no_handler n⟩
  simp [resetEntries, polls, disableEnable]

/-- Witness for C12: a reset of a state with both channels busy, on a backend
whose reset completes at the third poll. -/
theorem reset_sequence_witness :
    ∃ s', axi_dma_reset (testBackend XST_SUCCESS 0 3) 5 busyState = some s' ∧
      (∀ d, m_queued d s'.g = 0 ∧ m_handler d s'.g = none) ∧
      s'.trace = busyState.trace ++
        ([⟨Globals.idle, .XAxiDma_Reset⟩]
          ++ List.replicate (2 + 1) ⟨Globals.idle, .XAxiDma_ResetIsDone⟩
          ++ [⟨Globals.idle, .XAxiDma_IntrDisable XAXIDMA_IRQ_ALL_MASK .XAXIDMA_DMA_TO_DEVICE⟩,
              ⟨Globals.idle, .XAxiDma_IntrDisable XAXIDMA_IRQ_ALL_MASK .XAXIDMA_DEVICE_TO_DMA⟩,
              ⟨Globals.idle, .XAxiDma_IntrEnable XAXIDMA_IRQ_ALL_MASK .XAXIDMA_DMA_TO_DEVICE⟩,
              ⟨Globals.idle, .XAxiDma_IntrEnable XAXIDMA_IRQ_ALL_MASK .XAXIDMA_DEVICE_TO_DMA⟩]) ∧
      (∀ d, m_queued d Globals.idle = 0 ∧ m_handler d Globals.idle = none) ∧
      (resetEntries 2).countP (fun e => e.call.isHandler) = 0 :=
  reset_sequence (testBackend XST_SUCCESS 0 3) 5 busyState 2 (by decide)
    (by
      intro k hk
      have hk2 : k = 0 ∨ k = 1 := by omega
      rcases hk2 with rfl | rfl <;> decide)
    (by decide)

/-! ## Initialization -/

theorem initialize_interrupts_aux (be : Backend) (p : Params) (BaseAddr : Nat) (s : State) :
    axi_dma_initialize_interrupts be p BaseAddr s
      = (XST_SUCCESS, ⟨s.g, s.trace ++ (bindEntries p BaseAddr s.g ++
          [⟨s.g, .XIntc_In32 ((BaseAddr + XIN_IER_OFFSET) % 2 ^ 32)⟩,
           ⟨s.g, .XIntc_EnableIntr BaseAddr
              (readMask be p BaseAddr s.trace s.g
                ||| (1 <<< p.XPAR_INTC_0_AXIDMA_0_MM2S_INTROUT_VEC_ID) % 2 ^ 32
                ||| (1 <<< p.XPAR_INTC_0_AXIDMA_0_S2MM_INTROUT_VEC_ID) % 2 ^ 32)⟩])⟩) := by
  simp [axi_dma_initialize_interrupts, log, bindEntries, readMask]

theorem initialize_none_aux (be : Backend) (p : Params) (s : State)
    (hcfg : be.XAxiDma_LookupConfig (s.trace ++ [⟨Globals.idle, .xil_printf .initializing_dma⟩])
      p.XPAR_AXI_DMA_0_DEVICE_ID = none) :
    axi_dma_initialize be p s
      = (XST_FAILURE, ⟨Globals.idle, s.trace ++
          [⟨Globals.idle, .xil_printf .initializing_dma⟩,
           ⟨Globals.idle, .XAxiDma_LookupConfig p.XPAR_AXI_DMA_0_DEVICE_ID⟩,
           ⟨Globals.idle, .xil_printf .lookup_config_fails⟩]⟩) := by
  simp only [Globals.idle] at hcfg
  simp [ axi_dma_initialize, log, Globals.idle, hcfg]

theorem initialize_sg_aux (be : Backend) (p : Params) (s : State) (cfg : Nat)
    (hcfg : be.XAxiDma_LookupConfig (s.trace ++ [⟨Globals.idle, .xil_printf .initializing_dma⟩])
      p.XPAR_AXI_DMA_0_DEVICE_ID = some cfg)
    (hsg : be.XAxiDma_HasSg (s.trace ++
      [⟨Globals.idle, .xil_printf .initializing_dma⟩,
       ⟨Globals.idle, .XAxiDma_LookupConfig p.XPAR_AXI_DMA_0_DEVICE_ID⟩,
       ⟨Globals.idle, .XAxiDma_CfgInitialize cfg⟩]) = true) :
    axi_dma_initialize be p s
      = (XST_FAILURE, ⟨Globals.idle, s.trace ++
          (initLookup p cfg ++ [⟨Globals.idle, .xil_printf .sg_configured⟩])⟩) := by
  simp only [Globals.idle] at hcfg hsg
  simp [ axi_dma_initialize, log, Globals.idle, hcfg, hsg, initLookup]

theorem initialize_ok_aux (be : Backend) (p : Params) (s : State) (cfg : Nat)
    (hcfg : be.XAxiDma_LookupConfig (s.trace ++ [⟨Globals.idle, .xil_printf .initializing_dma⟩])
      p.XPAR_AXI_DMA_0_DEVICE_ID = some cfg)
    (hsg : be.XAxiDma_HasSg (s.trace ++
      [⟨Globals.idle, .xil_printf .initializing_dma⟩,
       ⟨Globals.idle, .XAxiDma_LookupConfig p.XPAR_AXI_DMA_0_DEVICE_ID⟩,
       ⟨Globals.idle, .XAxiDma_CfgInitialize cfg⟩]) = false) :
    axi_dma_initialize be p s
      = (XST_SUCCESS, ⟨Globals.idle, s.trace ++ initEntries be p s.trace cfg⟩) := by
  simp only [Globals.idle] at hcfg hsg
  simp [ axi_dma_initialize, log, Globals.idle, hcfg, hsg, initLookup, initEntries,
    initialize_interrupts_aux, axi_dma_interrupts_disable, axi_dma_interrupts_enable,
    bindEntries, readMask, disableEnable, XST_SUCCESS]

theorem initialize_success_iff_aux (be : Backend) (p : Params) (s : State) :
    ( axi_dma_initialize be p s).1 = XST_SUCCESS ↔
      ∃ cfg, be.XAxiDma_LookupConfig
          (s.trace ++ [⟨Globals.idle, .xil_printf .initializing_dma⟩])
          p.XPAR_AXI_DMA_0_DEVICE_ID = some cfg ∧
        be.XAxiDma_HasSg (s.trace ++
          [⟨Globals.idle, .xil_printf .initializing_dma⟩,
           ⟨Globals.idle, .XAxiDma_LookupConfig p.XPAR_AXI_DMA_0_DEVICE_ID⟩,
           ⟨Globals.idle, .XAxiDma_CfgInitialize cfg⟩]) = false := by
  cases hcfg : be.XAxiDma_LookupConfig
      (s.trace ++ [⟨Globals.idle, .xil_printf .initializing_dma⟩])
      p.XPAR_AXI_DMA_0_DEVICE_ID with
  | none =>
    rw [initialize_none_aux be p s hcfg]
    simp [XST_SUCCESS, XST_FAILURE]
  | some cfg =>
    cases hsg : be.XAxiDma_HasSg (s.trace ++
        [⟨Globals.idle, .xil_printf .initializing_dma⟩,
         ⟨Globals.idle, .XAxiDma_LookupConfig p.XPAR_AXI_DMA_0_DEVICE_ID⟩,
         ⟨Globals.idle, .XAxiDma_CfgInitialize cfg⟩]) with
    | false =>
      rw [initialize_ok_aux be p s cfg hcfg hsg]
      simp [hsg]
    | true =>
      rw [initialize_sg_aux be p s cfg hcfg hsg]
      simp [XST_SUCCESS, XST_FAILURE, hsg]

theorem idle_channels (d : Direction) :
    m_queued d Globals.idle = 0 ∧ m_handler d Globals.idle = none ∧
      axi_dma_queued d Globals.idle = false := by
  cases d <;>
    simp [m_queued, m_handler, axi_dma_queued, axi_dma_queued_tx, axi_dma_queued_rx,
      Globals.idle]

/-- C13: when `axi_dma_reset` runs from any state on a backend whose reset
completes within the fuel, and `axi_dma_initialize` succeeds from any state,
the two leave the same globals (both counters 0, both handlers empty); both
logs end with the same four calls (disable transmit, disable receive, enable
transmit, enable receive); and the reset makes no interrupt-controller call:
no vector registration, no read or write of the enable mask. -/
theorem reset_like_fresh_initialize (be : Backend) (p : Params) (fuel : Nat) (s s0 : State)
    (n : Nat) (hn : n < fuel)
    (hfalse : ∀ k, k < n → be.XAxiDma_ResetIsDone
      (s.trace ++ ⟨Globals.idle, .XAxiDma_Reset⟩ :: polls Globals.idle k) = false)
    (htrue : be.XAxiDma_ResetIsDone
      (s.trace ++ ⟨Globals.idle, .XAxiDma_Reset⟩ :: polls Globals.idle n) = true)
    (hinit : ( axi_dma_initialize be p s0).1 = XST_SUCCESS) :
    ∃ sr, axi_dma_reset be fuel s = some sr ∧
      sr.g = ( axi_dma_initialize be p s0).2.g ∧
      (∀ d, m_queued d sr.g = 0 ∧ m_handler d sr.g = none ∧ axi_dma_queued d sr.g = false) ∧
      (∃ pre, sr.trace = pre ++ disableEnable Globals.idle) ∧
      (∃ pre, ( axi_dma_initialize be p s0).2.trace = pre ++ disableEnable Globals.idle) ∧
      (∃ new, sr.trace = s.trace ++ new ∧ ∀ e ∈ new, e.call.isIntc = false) := by
  obtain ⟨cfg, hcfg, hsg⟩ := (initialize_success_iff_aux be p s0).1 hinit
  rw [initialize_ok_aux be p s0 cfg hcfg hsg]
  refine ⟨⟨Globals.idle, s.trace ++ resetEntries n⟩,
    reset_entries_aux be fuel s n hn hfalse htrue, rfl, idle_channels, ?_, ?_,
    ⟨resetEntries n, rfl, reset_entries_no_intc n⟩⟩
  · exact ⟨s.trace ++ ⟨Globals.idle, .XAxiDma_Reset⟩ :: polls Globals.idle (n + 1), by
      simp [resetEntries]⟩
  · refine ⟨s0.trace ++ (initLookup p cfg
      ++ [⟨Globals.idle, .xil_printf .initializing_interrupts⟩]
      ++ bindEntries p p.XPAR_MICROBLAZE_0_INTC_BASEADDR Globals.idle
      ++ [⟨Globals.idle, .XIntc_In32 ((p.XPAR_MICROBLAZE_0_INTC_BASEADDR + XIN_IER_OFFSET)
            % 2 ^ 32)⟩,
          ⟨Globals.idle, .XIntc_EnableIntr p.XPAR_MICROBLAZE_0_INTC_BASEADDR
            (readMask be p p.XPAR_MICROBLAZE_0_INTC_BASEADDR
                (s0.trace ++ initLookup p cfg
                  ++ [⟨Globals.idle, .xil_printf .initializing_interrupts⟩])
                Globals.idle
              ||| (1 <<< p.XPAR_INTC_0_AXIDMA_0_MM2S_INTROUT_VEC_ID) % 2 ^ 32
              ||| (1 <<< p.XPAR_INTC_0_AXIDMA_0_S2MM_INTROUT_VEC_ID) % 2 ^ 32)⟩]), ?_⟩
    simp [initEntries]

/-- Witness for C13: a reset of a state with both channels busy against a
successful initialization from boot, on a backend whose reset completes at
the third poll. -/
theorem reset_like_fresh_initialize_witness :
    ∃ sr, axi_dma_reset (testBackend XST_SUCCESS 0 3) 5 busyState = some sr ∧
      sr.g = ( axi_dma_initialize (testBackend XST_SUCCESS 0 3) testParams boot).2.g ∧
      (∀ d, m_queued d sr.g = 0 ∧ m_handler d sr.g = none ∧ axi_dma_queued d sr.g = false) ∧
      (∃ pre, sr.trace = pre ++ disableEnable Globals.idle) ∧
      (∃ pre, ( axi_dma_initialize (testBackend XST_SUCCESS 0 3) testParams boot).2.trace
        = pre ++ disableEnable Globals.idle) ∧
      (∃ new, sr.trace = busyState.trace ++ new ∧ ∀ e ∈ new, e.call.isIntc = false) :=
  reset_like_fresh_initialize (testBackend XST_SUCCESS 0 3) testParams 5 busyState boot 2
    (by decide)
    (by
      intro k hk
      have hk2 : k = 0 ∨ k = 1 := by omega
      rcases hk2 with rfl | rfl <;> decide)
    (by decide) (by decide)

/-- C14: when the lookup finds a configuration and the engine reports
scatter-gather support, `axi_dma_initialize` returns failure, and its log
holds only the banner, the lookup, the configuration apply, the
scatter-gather query and the diagnostic line: no vector registration, no read
or write of the controller's enable mask, no engine interrupt-disable or
interrupt-enable. -/
theorem initialize_rejects_scatter_gather (be : Backend) (p : Params) (s : State) (cfg : Nat)
    (hcfg : be.XAxiDma_LookupConfig (s.trace ++ [⟨Globals.idle, .xil_printf .initializing_dma⟩])
      p.XPAR_AXI_DMA_0_DEVICE_ID = some cfg)
    (hsg : be.XAxiDma_HasSg (s.trace ++
      [⟨Globals.idle, .xil_printf .initializing_dma⟩,
       ⟨Globals.idle, .XAxiDma_LookupConfig p.XPAR_AXI_DMA_0_DEVICE_ID⟩,
       ⟨Globals.idle, .XAxiDma_CfgInitialize cfg⟩]) = true) :
    axi_dma_initialize be p s
      = (XST_FAILURE, ⟨Globals.idle, s.trace ++
          [⟨Globals.idle, .xil_printf .initializing_dma⟩,
           ⟨Globals.idle, .XAxiDma_LookupConfig p.XPAR_AXI_DMA_0_DEVICE_ID⟩,
           ⟨Globals.idle, .XAxiDma_CfgInitialize cfg⟩,
           ⟨Globals.idle, .XAxiDma_HasSg⟩,
           ⟨Globals.idle, .xil_printf .sg_configured⟩]⟩) ∧
    ∀ e ∈ (( axi_dma_initialize be p s).2.trace.drop s.trace.length),
      e.call.isIntc = false ∧ e.call.isIntrCtl = false := by
  have h := initialize_sg_aux be p s cfg hcfg hsg
  refine ⟨by simpa [initLookup] using h, ?_⟩
  rw [h]
  intro e he
  simp [initLookup] at he
  rcases he with rfl | rfl | rfl | rfl | rfl <;> exact ⟨rfl, rfl⟩

/-- Witness for C14: initialization from boot on a backend that reports
scatter-gather support. -/
theorem initialize_rejects_scatter_gather_witness :
    ( axi_dma_initialize (initBackend (some 1) true 0 0) testParams boot).1 = XST_FAILURE :=
  congrArg Prod.fst
    (initialize_rejects_scatter_gather (initBackend (some 1) true 0 0) testParams boot 1
      (by decide) (by decide)).1

/-- C15: when the lookup reports no device, `axi_dma_initialize` returns
failure from any state with all four globals cleared, and after the lookup it
logs nothing but the diagnostic line: no configuration apply, no
scatter-gather query, no vector registration, no interrupt enable or
disable. -/
theorem initialize_missing_device (be : Backend) (p : Params) (s : State)
    (hcfg : be.XAxiDma_LookupConfig (s.trace ++ [⟨Globals.idle, .xil_printf .initializing_dma⟩])
      p.XPAR_AXI_DMA_0_DEVICE_ID = none) :
    axi_dma_initialize be p s
      = (XST_FAILURE, ⟨Globals.idle, s.trace ++
          [⟨Globals.idle, .xil_printf .initializing_dma⟩,
           ⟨Globals.idle, .XAxiDma_LookupConfig p.XPAR_AXI_DMA_0_DEVICE_ID⟩,
           ⟨Globals.idle, .xil_printf .lookup_config_fails⟩]⟩) ∧
    ∀ d, m_queued d Globals.idle = 0 ∧ m_handler d Globals.idle = none ∧
      axi_dma_queued d Globals.idle = false :=
  ⟨initialize_none_aux be p s hcfg, idle_channels⟩

/-- Witness for C15: initialization of a state with both channels busy on a
backend without the device. -/
theorem initialize_missing_device_witness :
    ( axi_dma_initialize (initBackend none false 0 0) testParams busyState).1 = XST_FAILURE ∧
    ( axi_dma_initialize (initBackend none false 0 0) testParams busyState).2.g
      = Globals.idle :=
  ⟨congrArg Prod.fst
      (initialize_missing_device (initBackend none false 0 0) testParams busyState
        (by decide)).1,
    congrArg (fun r => r.2.g)
      (initialize_missing_device (initBackend none false 0 0) testParams busyState
        (by decide)).1⟩

/-- C16: when the lookup finds a configuration and the engine reports no
scatter-gather support, `axi_dma_initialize` returns success from any state
with all four globals cleared, and its calls are, in this order: the banner,
the lookup, the configuration apply, the scatter-gather query, a banner, the
registration of the transmit vector, the registration of the receive vector,
the read of the controller's enable register, the write of the enable mask,
interrupt-disable for transmit and receive, interrupt-enable for transmit and
receive.  So both disables precede both enables, and both vectors are bound
before any engine interrupt is enabled. -/
theorem initialize_success_order (be : Backend) (p : Params) (s : State) (cfg : Nat)
    (hcfg : be.XAxiDma_LookupConfig (s.trace ++ [⟨Globals.idle, .xil_printf .initializing_dma⟩])
      p.XPAR_AXI_DMA_0_DEVICE_ID = some cfg)
    (hsg : be.XAxiDma_HasSg (s.trace ++
      [⟨Globals.idle, .xil_printf .initializing_dma⟩,
       ⟨Globals.idle, .XAxiDma_LookupConfig p.XPAR_AXI_DMA_0_DEVICE_ID⟩,
       ⟨Globals.idle, .XAxiDma_CfgInitialize cfg⟩]) = false) :
    axi_dma_initialize be p s
      = (XST_SUCCESS, ⟨Globals.idle, s.trace ++ initEntries be p s.trace cfg⟩) ∧
    (∀ d, m_queued d Globals.idle = 0 ∧ m_handler d Globals.idle = none ∧
      axi_dma_queued d Globals.idle = false) ∧
    ∃ mask, (initEntries be p s.trace cfg).map Entry.call =
      [.xil_printf .initializing_dma,
       .XAxiDma_LookupConfig p.XPAR_AXI_DMA_0_DEVICE_ID,
       .XAxiDma_CfgInitialize cfg,
       .XAxiDma_HasSg,
       .xil_printf .initializing_interrupts,
       .XIntc_RegisterHandler p.XPAR_MICROBLAZE_0_INTC_BASEADDR
         p.XPAR_INTC_0_AXIDMA_0_MM2S_INTROUT_VEC_ID .axi_dma_isr_tx,
       .XIntc_RegisterHandler p.XPAR_MICROBLAZE_0_INTC_BASEADDR
         p.XPAR_INTC_0_AXIDMA_0_S2MM_INTROUT_VEC_ID .axi_dma_isr_rx,
       .XIntc_In32 ((p.XPAR_MICROBLAZE_0_INTC_BASEADDR + XIN_IER_OFFSET) % 2 ^ 32),
       .XIntc_EnableIntr p.XPAR_MICROBLAZE_0_INTC_BASEADDR mask,
       .XAxiDma_IntrDisable XAXIDMA_IRQ_ALL_MASK .XAXIDMA_DMA_TO_DEVICE,
       .XAxiDma_IntrDisable XAXIDMA_IRQ_ALL_MASK .XAXIDMA_DEVICE_TO_DMA,
       .XAxiDma_IntrEnable XAXIDMA_IRQ_ALL_MASK .XAXIDMA_DMA_TO_DEVICE,
       .XAxiDma_IntrEnable XAXIDMA_IRQ_ALL_MASK .XAXIDMA_DEVICE_TO_DMA] := by
  refine ⟨initialize_ok_aux be p s cfg hcfg hsg, idle_channels, ?_⟩
  exact ⟨_, by simp [initEntries, initLookup, bindEntries, disableEnable]; rfl⟩

/-- Witness for C16: initialization of a state with both channels busy on a
backend with the device and without scatter-gather. -/
theorem initialize_success_order_witness :
    ( axi_dma_initialize (initBackend (some 1) false 0 0) testParams busyState).1
      = XST_SUCCESS ∧
    ( axi_dma_initialize (initBackend (some 1) false 0 0) testParams busyState).2.g
      = Globals.idle :=
  ⟨congrArg Prod.fst
      (initialize_success_order (initBackend (some 1) false 0 0) testParams busyState 1
        (by decide) (by decide)).1,
    congrArg (fun r => r.2.g)
      (initialize_success_order (initBackend (some 1) false 0 0) testParams busyState 1
        (by decide) (by decide)).1⟩

/-- C20: `axi_dma_initialize_interrupts` returns success for every base
address, backend and state, so `axi_dma_initialize` never fails at the
interrupt set-up; it returns success exactly when the lookup finds a
configuration and the engine then reports no scatter-gather support. -/
theorem initialize_outcome (be : Backend) (p : Params) (BaseAddr : Nat) (s : State) :
    (axi_dma_initialize_interrupts be p BaseAddr s).1 = XST_SUCCESS ∧
    (( axi_dma_initialize be p s).1 = XST_SUCCESS ↔
      ∃ cfg, be.XAxiDma_LookupConfig
          (s.trace ++ [⟨Globals.idle, .xil_printf .initializing_dma⟩])
          p.XPAR_AXI_DMA_0_DEVICE_ID = some cfg ∧
        be.XAxiDma_HasSg (s.trace ++
          [⟨Globals.idle, .xil_printf .initializing_dma⟩,
           ⟨Globals.idle, .XAxiDma_LookupConfig p.XPAR_AXI_DMA_0_DEVICE_ID⟩,
           ⟨Globals.idle, .XAxiDma_CfgInitialize cfg⟩]) = false) ∧
    (( axi_dma_initialize be p s).1 = XST_SUCCESS ∨
      ( axi_dma_initialize be p s).1 = XST_FAILURE) := by
  refine ⟨by rw [initialize_interrupts_aux], initialize_success_iff_aux be p s, ?_⟩
  cases hcfg : be.XAxiDma_LookupConfig
      (s.trace ++ [⟨Globals.idle, .xil_printf .initializing_dma⟩])
      p.XPAR_AXI_DMA_0_DEVICE_ID with
  | none =>
    rw [initialize_none_aux be p s hcfg]
    exact Or.inr rfl
  | some cfg =>
    cases hsg : be.XAxiDma_HasSg (s.trace ++
        [⟨Globals.idle, .xil_printf .initializing_dma⟩,
         ⟨Globals.idle, .XAxiDma_LookupConfig p.XPAR_AXI_DMA_0_DEVICE_ID⟩,
         ⟨Globals.idle, .XAxiDma_CfgInitialize cfg⟩]) with
    | false =>
      rw [initialize_ok_aux be p s cfg hcfg hsg]
      exact Or.inl rfl
    | true =>
      rw [initialize_sg_aux be p s cfg hcfg hsg]
      exact Or.inr rfl

/-! ## The controller enable mask -/

theorem shift_fits (t : Nat) (ht : t < 32) : (1 <<< t) % 2 ^ 32 = 2 ^ t := by
  rw [Nat.one_shiftLeft]
  exact Nat.mod_eq_of_lt (Nat.pow_lt_pow_right (by decide) ht)

/-- C18: with both vector ids below 32 and a 32-bit value `m` read from the
controller's enable register, `axi_dma_initialize_interrupts` ends with the
write of the mask `m ||| 1 <<< t ||| 1 <<< r`.  Bit `i` of the written mask is
set exactly when it is set in `m` or `i` is one of the two vector ids, and the
mask still fits in 32 bits. -/
theorem unmask_is_additive (be : Backend) (p : Params) (BaseAddr : Nat) (s : State)
    (ht : p.XPAR_INTC_0_AXIDMA_0_MM2S_INTROUT_VEC_ID < 32)
    (hr : p.XPAR_INTC_0_AXIDMA_0_S2MM_INTROUT_VEC_ID < 32)
    (hm : readMask be p BaseAddr s.trace s.g < 2 ^ 32) :
    (axi_dma_initialize_interrupts be p BaseAddr s).2.trace.getLast?
      = some ⟨s.g, .XIntc_EnableIntr BaseAddr
          (readMask be p BaseAddr s.trace s.g
            ||| 1 <<< p.XPAR_INTC_0_AXIDMA_0_MM2S_INTROUT_VEC_ID
            ||| 1 <<< p.XPAR_INTC_0_AXIDMA_0_S2MM_INTROUT_VEC_ID)⟩ ∧
    (∀ i, (readMask be p BaseAddr s.trace s.g
            ||| 1 <<< p.XPAR_INTC_0_AXIDMA_0_MM2S_INTROUT_VEC_ID
            ||| 1 <<< p.XPAR_INTC_0_AXIDMA_0_S2MM_INTROUT_VEC_ID).testBit i
        = ((readMask be p BaseAddr s.trace s.g).testBit i
            || decide (i = p.XPAR_INTC_0_AXIDMA_0_MM2S_INTROUT_VEC_ID)
            || decide (i = p.XPAR_INTC_0_AXIDMA_0_S2MM_INTROUT_VEC_ID))) ∧
    readMask be p BaseAddr s.trace s.g
        ||| 1 <<< p.XPAR_INTC_0_AXIDMA_0_MM2S_INTROUT_VEC_ID
        ||| 1 <<< p.XPAR_INTC_0_AXIDMA_0_S2MM_INTROUT_VEC_ID < 2 ^ 32 := by
  refine ⟨?_, ?_, ?_⟩
  · rw [initialize_interrupts_aux, shift_fits _ ht, shift_fits _ hr]
    simp [Nat.one_shiftLeft]
  · intro i
    have e1 : decide (p.XPAR_INTC_0_AXIDMA_0_MM2S_INTROUT_VEC_ID = i)
        = decide (i = p.XPAR_INTC_0_AXIDMA_0_MM2S_INTROUT_VEC_ID) :=
      decide_eq_decide.2 eq_comm
    have e2 : decide (p.XPAR_INTC_0_AXIDMA_0_S2MM_INTROUT_VEC_ID = i)
        = decide (i = p.XPAR_INTC_0_AXIDMA_0_S2MM_INTROUT_VEC_ID) :=
      decide_eq_decide.2 eq_comm
    simp only [Nat.one_shiftLeft, Nat.testBit_or, Nat.testBit_two_pow, e1, e2]
  · rw [Nat.one_shiftLeft, Nat.one_shiftLeft]
    exact Nat.or_lt_two_pow (Nat.or_lt_two_pow hm (Nat.pow_lt_pow_right (by decide) ht))
      (Nat.pow_lt_pow_right (by decide) hr)

/-- Witness for C18: vector ids 1 and 2 on a controller whose enable register
reads `0x81`: the written mask is `0x87`. -/
theorem unmask_is_additive_witness :
    (axi_dma_initialize_interrupts (initBackend (some 1) false 0x81 0) testParams
        0x41200000 boot).2.trace.getLast?
      = some ⟨boot.g, .XIntc_EnableIntr 0x41200000 0x87⟩ :=
  (unmask_is_additive (initBackend (some 1) false 0x81 0) testParams 0x41200000 boot
    (by decide) (by decide) (by decide)).1

/-! ## Resubmission from a completion handler -/

theorem queue_accept_aux (d : Direction) (be : Backend) (buff size : Nat)
    (handler : AXI_DMA_HANDLER) (s : State) (hidle : m_queued d s.g = 0)
    (hok : be.XAxiDma_SimpleTransfer s.trace buff size d = XST_SUCCESS) :
    ∃ s', axi_dma_queue d be buff size handler s = (XST_SUCCESS, s') ∧
      axi_dma_queued d s'.g = true ∧ m_queued d s'.g = 1 ∧ m_handler d s'.g = handler ∧
      s'.trace = s.trace ++ [⟨s'.g, .XAxiDma_SimpleTransfer buff size d⟩] := by
  cases d <;>
    simp [axi_dma_queue, axi_dma_queue_tx, axi_dma_queue_rx, axi_dma_queued_tx,
      axi_dma_queued_rx, axi_dma_queued, m_queued, m_handler, log] at hidle hok ⊢ <;>
    simp [hidle, hok]

theorem exec_queue_aux (d : Direction) (be : Backend) (fuel : Nat) (buff size : Nat)
    (handler : AXI_DMA_HANDLER) (s : State) :
    (Call.queue d buff size handler).exec be fuel s
      = some (axi_dma_queue d be buff size handler s).2 := by
  cases d <;> rfl

/-- C17: when channel `d` stores handler `h`, and the body of `h` submits a
new transfer on `d` with handler `h2` that the backend accepts, then on a
completion interrupt for `d` (error bit clear, delay or transfer-complete bit
set) the submit made inside `h` returns success instead of busy, and the
interrupt handler returns with channel `d` busy and `h2` stored: the last call
of the run is the start-transfer of the new submit, so nothing clears the
channel after `h` returns. -/
theorem isr_allows_resubmission (d : Direction) (be : Backend) (uc : UserCode) (p : Params)
    (fuel : Nat) (s : State) (h : Nat) (buff size : Nat) (h2 : AXI_DMA_HANDLER)
    (herr : be.XAxiDma_IntrGetIrq s.trace d &&& XAXIDMA_IRQ_ERROR_MASK = 0)
    (hdone : be.XAxiDma_IntrGetIrq s.trace d &&& XAXIDMA_IRQ_DELAY_MASK ≠ 0 ∨
      be.XAxiDma_IntrGetIrq s.trace d &&& XAXIDMA_IRQ_IOC_MASK ≠ 0)
    (hh : m_handler d s.g = some h)
    (hbody : uc h = [Call.queue d buff size h2])
    (hok : be.XAxiDma_SimpleTransfer (s.trace ++ completionEntries d be p s h) buff size d
      = XST_SUCCESS) :
    ∃ s', axi_dma_isr d be uc p fuel s = some s' ∧
      axi_dma_queue d be buff size h2 ⟨s.g.clear d, s.trace ++ completionEntries d be p s h⟩
        = (XST_SUCCESS, s') ∧
      axi_dma_queued d s'.g = true ∧ m_queued d s'.g = 1 ∧ m_handler d s'.g = h2 ∧
      s'.trace = s.trace ++ completionEntries d be p s h
        ++ [⟨s'.g, .XAxiDma_SimpleTransfer buff size d⟩] := by
  have hidle : m_queued d (s.g.clear d) = 0 := by
    cases d <;> simp [m_queued, Globals.clear]
  obtain ⟨s', hq, h1, h2', h3, h4⟩ := queue_accept_aux d be buff size h2
    ⟨s.g.clear d, s.trace ++ completionEntries d be p s h⟩ hidle hok
  refine ⟨s', ?_, hq, h1, h2', h3, h4⟩
  rw [isr_completion_aux d be uc p fuel s h herr (done_of_either _ hdone) hh, hbody]
  simp [runBody, exec_queue_aux, hq]

/-- Witness for C17: a transmit completion on a busy channel whose handler `9`
submits a new transmit transfer with handler `4`. -/
theorem isr_allows_resubmission_witness :
    ∃ s', axi_dma_isr .XAXIDMA_DMA_TO_DEVICE sampleBackend resubmitCode testParams 3 busyState
        = some s' ∧
      axi_dma_queued .XAXIDMA_DMA_TO_DEVICE s'.g = true ∧
      m_handler .XAXIDMA_DMA_TO_DEVICE s'.g = some 4 :=
  match isr_allows_resubmission .XAXIDMA_DMA_TO_DEVICE sampleBackend resubmitCode testParams 3
      busyState 9 8192 32 (some 4) (by decide) (Or.inr (by decide)) (by decide) (by decide)
      (by decide) with
  | ⟨s', hs, _, hb, _, hh, _⟩ => ⟨s', hs, hb, hh⟩

/-! ## The busy counter -/

/-- C19: in every state reached from the state left by `axi_dma_initialize`
through any finite sequence of submits, interrupts and resets, the busy
counter of each direction is 0 or 1; and from any state at all, a submit that
changes the counter of its direction found it at 0 and leaves it at 1, so the
increment never runs on a non-zero counter. -/
theorem busy_counter_zero_or_one (be : Backend) (uc : UserCode) (p : Params) (fuel : Nat)
    (g0 : Globals) (ops : List Op) (s' : State) (d : Direction)
    (hrun : run be uc p fuel ops (initialized be p g0) = some s') :
    (m_queued d s'.g = 0 ∨ m_queued d s'.g = 1) ∧
    ∀ (s : State) (buff size : Nat) (handler : AXI_DMA_HANDLER),
      m_queued d (axi_dma_queue d be buff size handler s).2.g ≠ m_queued d s.g →
      m_queued d s.g = 0 ∧ m_queued d (axi_dma_queue d be buff size handler s).2.g = 1 := by
  have hs := sound_run be uc p fuel ops _ s' (sound_initialized be p g0) hrun
  refine ⟨hs.2.1 d, ?_⟩
  intro s buff size handler hne
  rcases axi_dma_queue_cases d be buff size handler s with
    ⟨_, he⟩ | ⟨hq, g', hq', _, _, _, he | he⟩
  · rw [he] at hne
    exact absurd rfl hne
  · rw [he]
    exact ⟨hq, hq'⟩
  · rw [he]
    exact ⟨hq, hq'⟩

/-- Witness for C19: the sample session returns with the transmit counter at 0
or 1. -/
theorem busy_counter_zero_or_one_witness :
    ∃ s', run sampleBackend quietCode testParams 3 sampleOps
        (initialized sampleBackend testParams boot.g) = some s' ∧
      (m_queued .XAXIDMA_DMA_TO_DEVICE s'.g = 0 ∨ m_queued .XAXIDMA_DMA_TO_DEVICE s'.g = 1) :=
  ⟨_, rfl,
    (busy_counter_zero_or_one sampleBackend quietCode testParams 3 boot.g sampleOps _
      .XAXIDMA_DMA_TO_DEVICE rfl).1⟩

end AxiDma
